import Mathlib

/-!
# WARS-Birdhouse message processor: a shallow embedding

This file embeds the per-node message-processing pipeline of the
WARS-Birdhouse LoRa mesh firmware (`MessageProcessor.cpp`) in Lean 4 and
proves properties of the embedding.

The repository ships `MessageProcessor.cpp` (the `_process` pipeline,
`getUniqueId`, `resetCounters`, `transmitIfPossible`, `pump`), which is the
authority for control flow.  The headers it includes (`packets.h`,
`RoutingTable.h`, `CircularBuffer.h`, `Configuration.h`) are not part of the
sources, so the packet layout, the flag accessors, `setupAckFor`,
`setupResponseFor`, `PacketReport::isDuplicate`, the routing-table contract
and the payload struct sizes are modelled from the design specification,
each marked `Modelled from the spec:` in its doc comment.

Machine integers are mapped to `Nat`; 16-bit counters wrap explicitly with
`% 65536`.  The two circular buffers and the outbound packet manager are
abstracted as the ordered list of `transmitIfPossible` calls an invocation
of `_process` makes (the spec models `push` as succeeding when there is
room; the effect list records every scheduling attempt in order).  Logging
is modelled as a list of strings: the error messages the design names are
kept verbatim, informational lines are abbreviated to a constant prefix.
-/

namespace Birdhouse

/-- Modelled from the spec: the protocol version constant (`PACKET_VERSION`
in `packets.h`); packets with any other version byte are rejected. -/
def PACKET_VERSION : Nat := 2

/-- Modelled from the spec: the broadcast address `0xFFFF`. -/
def BROADCAST_ADDR : Nat := 0xFFFF

/-- Modelled from the spec: the `RoutingTable::NO_ROUTE` sentinel.  The spec
says address `0` is invalid and the caller treats a `0` next hop as
no-route, so the sentinel is `0`. -/
def NO_ROUTE : Nat := 0

/-- Modelled from the spec: message type codes from `packets.h`.  Their
numeric values are not load-bearing, only their distinctness. -/
def TYPE_PING_REQ : Nat := 1

/-- Modelled from the spec: type code of a ping response. -/
def TYPE_PING_RESP : Nat := 2

/-- Modelled from the spec: type code of a station-engineering-data request. -/
def TYPE_GETSED_REQ : Nat := 3

/-- Modelled from the spec: type code of a station-engineering-data response. -/
def TYPE_GETSED_RESP : Nat := 4

/-- Modelled from the spec: type code of a reset (reboot) request. -/
def TYPE_RESET : Nat := 5

/-- Modelled from the spec: type code of a counter-reset request. -/
def TYPE_RESET_COUNTERS : Nat := 6

/-- Modelled from the spec: type code of a text message. -/
def TYPE_TEXT : Nat := 7

/-- Modelled from the spec: type code of a set-route request. -/
def TYPE_SETROUTE : Nat := 8

/-- Modelled from the spec: type code of a get-route request. -/
def TYPE_GETROUTE_REQ : Nat := 9

/-- Modelled from the spec: type code of a get-route response. -/
def TYPE_GETROUTE_RESP : Nat := 10

/-- Modelled from the spec: `sizeof(Header)`.  The header holds a version
byte, a type byte, a 16-bit id, four 16-bit addresses and two 8-byte call
signs: `1 + 1 + 2 + 4*2 + 2*8 = 28` bytes. -/
def sizeofHeader : Nat := 28

/-- Modelled from the spec: `sizeof(Packet)`, the largest frame the engine
handles; the reference uses a total size of 256 bytes. -/
def sizeofPacket : Nat := 256

/-- Modelled from the spec: `sizeof(ResetReqPayload)` — one 32-bit passcode. -/
def sizeofResetReqPayload : Nat := 4

/-- Modelled from the spec: `sizeof(SetRouteReqPayload)` — a 32-bit passcode
and two 16-bit addresses. -/
def sizeofSetRouteReqPayload : Nat := 8

/-- Modelled from the spec: `sizeof(GetRouteReqPayload)` — one 16-bit target
address. -/
def sizeofGetRouteReqPayload : Nat := 2

/-- Modelled from the spec: `sizeof(GetRouteRespPayload)` — four 16-bit
fields (target, next hop, tx count, rx count). -/
def sizeofGetRouteRespPayload : Nat := 8

/-- Modelled from the spec: `sizeof(SadRespPayload)` — thirteen 16-bit
fields and two 32-bit fields: `13*2 + 2*4 = 34` bytes. -/
def sizeofSadRespPayload : Nat := 34

/-- Modelled from the spec: the number of slots in the dedup ring
(`_packetReportSlots`); the reference uses 8. -/
def packetReportSlots : Nat := 8

/-- Modelled from the spec: the dedup age window in milliseconds; entries
older than this are ignored even when the key matches. -/
def packetReportWindowMs : Nat := 60000

/-- A 16-bit increment: counters in the processor are `uint16_t`. -/
def inc16 (n : Nat) : Nat := (n + 1) % 65536

/-- Byte access into a payload, reading 0 beyond the end (the C struct
reads whatever bytes sit in the fixed-size packet buffer; the value read
past a short payload is unconstrained, the model pins it to 0). -/
def byteAt (bs : List Nat) (i : Nat) : Nat := bs.getD i 0

/-- Little-endian 16-bit read, as on the reference hardware. -/
def readU16 (bs : List Nat) (off : Nat) : Nat :=
  byteAt bs off + 256 * byteAt bs (off + 1)

/-- Little-endian 32-bit read, as on the reference hardware. -/
def readU32 (bs : List Nat) (off : Nat) : Nat :=
  byteAt bs off + 256 * byteAt bs (off + 1) +
    65536 * byteAt bs (off + 2) + 16777216 * byteAt bs (off + 3)

/-- Little-endian 16-bit write. -/
def writeU16 (n : Nat) : List Nat := [n % 256, n / 256 % 256]

/-- Little-endian 32-bit write. -/
def writeU32 (n : Nat) : List Nat :=
  [n % 256, n / 256 % 256, n / 65536 % 256, n / 16777216 % 256]

/-- Modelled from the spec: the abstract host configuration port
(`Configuration.h`).  `checkPasscode` is the authorization predicate. -/
structure Configuration where
  addr : Nat
  call : Nat
  bootCount : Nat
  sleepCount : Nat
  logLevel : Nat
  commandMode : Nat
  checkPasscode : Nat → Bool

/-- Modelled from the spec: the abstract instrumentation port
(`Instrumentation.h`): static snapshot values used to fill a
station-engineering-data response. -/
structure Instrumentation where
  softwareVersion : Nat
  batteryVoltage : Nat
  panelVoltage : Nat
  temperature : Nat
  humidity : Nat
  deviceClass : Nat
  deviceRevision : Nat
deriving DecidableEq, Repr

/-- Modelled from the spec: the on-wire packet header.  The type byte
carries a base type code plus an ACK bit and an ACK-required bit; the model
splits the byte into the code and the two flags.  Call signs are abstract
tokens. -/
structure Header where
  version : Nat
  type : Nat
  ackFlag : Bool
  ackRequiredFlag : Bool
  id : Nat
  sourceAddr : Nat
  destAddr : Nat
  originalSourceAddr : Nat
  finalDestAddr : Nat
  sourceCall : Nat
  originalSourceCall : Nat
deriving DecidableEq, Repr

/-- `Header::getPacketVersion`. -/
def Header.getPacketVersion (h : Header) : Nat := h.version

/-- `Header::getType`: the base type code. -/
def Header.getType (h : Header) : Nat := h.type

/-- `Header::isAck`: the ACK bit of the type byte. -/
def Header.isAck (h : Header) : Bool := h.ackFlag

/-- `Header::isAckRequired`: the ACK-required bit of the type byte. -/
def Header.isAckRequired (h : Header) : Bool := h.ackRequiredFlag

/-- `Header::getDestAddr`. -/
def Header.getDestAddr (h : Header) : Nat := h.destAddr

/-- `Header::getFinalDestAddr`. -/
def Header.getFinalDestAddr (h : Header) : Nat := h.finalDestAddr

/-- `Header::getOriginalSourceAddr`. -/
def Header.getOriginalSourceAddr (h : Header) : Nat := h.originalSourceAddr

/-- `Header::setId`. -/
def Header.setId (h : Header) (i : Nat) : Header := { h with id := i }

/-- `Header::setDestAddr`. -/
def Header.setDestAddr (h : Header) (a : Nat) : Header := { h with destAddr := a }

/-- `Header::setSourceAddr`. -/
def Header.setSourceAddr (h : Header) (a : Nat) : Header := { h with sourceAddr := a }

/-- Modelled from the spec: `Header::isResponseRequired` — the incoming
types that imply an outbound response (the request types). -/
def Header.isResponseRequired (h : Header) : Bool :=
  h.type == TYPE_PING_REQ || h.type == TYPE_GETSED_REQ || h.type == TYPE_GETROUTE_REQ

/-- Modelled from the spec: `Header::setupAckFor(req, config)`.  An ACK has
the ACK bit set, the ACK-required bit clear, the id copied from the
request, `destAddr` equal to the request's `sourceAddr` (hop-local reply)
and `sourceAddr` equal to the node's own address. -/
def Header.setupAckFor (req : Header) (cfg : Configuration) : Header :=
  { version := PACKET_VERSION
    type := req.type
    ackFlag := true
    ackRequiredFlag := false
    id := req.id
    sourceAddr := cfg.addr
    destAddr := req.sourceAddr
    originalSourceAddr := cfg.addr
    finalDestAddr := req.sourceAddr
    sourceCall := cfg.call
    originalSourceCall := cfg.call }

/-- Modelled from the spec: `Header::setupResponseFor(req, config, type,
id, firstHop)` — a response travels to the request's original source via
`firstHop`, carrying the node's own address as hop source and original
source. -/
def Header.setupResponseFor (req : Header) (cfg : Configuration)
    (ty : Nat) (newId : Nat) (firstHop : Nat) : Header :=
  { version := PACKET_VERSION
    type := ty
    ackFlag := false
    ackRequiredFlag := false
    id := newId
    sourceAddr := cfg.addr
    destAddr := firstHop
    originalSourceAddr := cfg.addr
    finalDestAddr := req.originalSourceAddr
    sourceCall := cfg.call
    originalSourceCall := cfg.call }

/-- A packet: header plus payload bytes.  The payload list models the
variable part of the fixed 256-byte `Packet` buffer. -/
structure Packet where
  header : Header
  payload : List Nat
deriving DecidableEq, Repr

/-- Modelled from the spec: `ResetReqPayload { passcode }`. -/
structure ResetReqPayload where
  passcode : Nat
deriving DecidableEq, Repr

/-- The `memcpy` of `ResetReqPayload` out of the packet payload. -/
def decodeResetReq (bs : List Nat) : ResetReqPayload :=
  ⟨readU32 bs 0⟩

/-- Modelled from the spec: `SetRouteReqPayload { passcode, targetAddr,
nextHopAddr }`. -/
structure SetRouteReqPayload where
  passcode : Nat
  targetAddr : Nat
  nextHopAddr : Nat
deriving DecidableEq, Repr

/-- The `memcpy` of `SetRouteReqPayload` out of the packet payload. -/
def decodeSetRouteReq (bs : List Nat) : SetRouteReqPayload :=
  ⟨readU32 bs 0, readU16 bs 4, readU16 bs 6⟩

/-- Modelled from the spec: `GetRouteReqPayload { targetAddr }`. -/
structure GetRouteReqPayload where
  targetAddr : Nat
deriving DecidableEq, Repr

/-- The `memcpy` of `GetRouteReqPayload` out of the packet payload. -/
def decodeGetRouteReq (bs : List Nat) : GetRouteReqPayload :=
  ⟨readU16 bs 0⟩

/-- Modelled from the spec: `GetRouteRespPayload { targetAddr, nextHopAddr,
txPacketCount, rxPacketCount }` serialized little-endian. -/
def encodeGetRouteResp (targetAddr nextHopAddr txCount rxCount : Nat) : List Nat :=
  writeU16 targetAddr ++ writeU16 nextHopAddr ++ writeU16 txCount ++ writeU16 rxCount

/-- Modelled from the spec: the `SadRespPayload` serialized little-endian in
field order (version, batteryMv, panelMv, uptimeSeconds, time, bootCount,
sleepCount, lastHopRssi, temp, humidity, deviceClass, deviceRevision,
rxPacketCount, badRxPacketCount, badRouteCount). -/
def encodeSadResp (version batteryMv panelMv uptimeSeconds time bootCount
    sleepCount lastHopRssi temp humidity deviceClass deviceRevision
    rxPacketCount badRxPacketCount badRouteCount : Nat) : List Nat :=
  writeU16 version ++ writeU16 batteryMv ++ writeU16 panelMv ++
  writeU32 uptimeSeconds ++ writeU32 time ++ writeU16 bootCount ++
  writeU16 sleepCount ++ writeU16 lastHopRssi ++ writeU16 temp ++
  writeU16 humidity ++ writeU16 deviceClass ++ writeU16 deviceRevision ++
  writeU16 rxPacketCount ++ writeU16 badRxPacketCount ++ writeU16 badRouteCount

/-- Modelled from the spec: the routing-table contract
(`RoutingTable::nextHop`): `0` maps to `0`, the special range `0xFFF0..`
routes to itself (including broadcast), addresses `>= 64` have no route,
and normal addresses are looked up in the dense table. -/
def RoutingTable.nextHop (table : List Nat) (finalDestAddr : Nat) : Nat :=
  if finalDestAddr = 0 then 0
  else if 0xFFF0 ≤ finalDestAddr then finalDestAddr
  else if 64 ≤ finalDestAddr then NO_ROUTE
  else table.getD finalDestAddr NO_ROUTE

/-- Modelled from the spec: `RoutingTable::setRoute` stores the entry. -/
def RoutingTable.setRoute (table : List Nat) (target nextHopAddr : Nat) : List Nat :=
  table.set target nextHopAddr

/-- One slot of the dedup ring (`PacketReport` in `packets.h`). -/
structure PacketReport where
  node : Nat
  id : Nat
  stamp : Nat
deriving DecidableEq, Repr

/-- Modelled from the spec: `PacketReport::isDuplicate(packet, clock)` — a
match on `(originalSourceAddr, id)` whose recorded stamp is within the age
window of the current time. -/
def PacketReport.isDuplicate (r : PacketReport) (p : Packet) (now : Nat) : Bool :=
  r.node == p.header.originalSourceAddr && r.id == p.header.id &&
    now - r.stamp ≤ packetReportWindowMs

/-- The mutable state owned by a `MessageProcessor` instance, together with
the routing table it holds by reference.  Counters are 16-bit. -/
structure MPState where
  idCounter : Nat
  startTime : Nat
  rxPacketCounter : Nat
  badRxPacketCounter : Nat
  badRouteCounter : Nat
  lastRxTime : Nat
  packetReport : List PacketReport
  packetReportPtr : Nat
  routingTable : List Nat
deriving DecidableEq, Repr

/-- `MessageProcessor::getUniqueId`: returns the current id counter and
post-increments it; the counter is 16-bit and wraps after 65535. -/
def getUniqueId (s : MPState) : Nat × MPState :=
  (s.idCounter, { s with idCounter := inc16 s.idCounter })

/-- `MessageProcessor::resetCounters`: zero the three diagnostic counters. -/
def resetCounters (s : MPState) : MPState :=
  { s with rxPacketCounter := 0, badRxPacketCounter := 0, badRouteCounter := 0 }

/-- The state set up by the `MessageProcessor` constructor at time `now`,
over a cleared routing table. -/
def initState (now : Nat) : MPState :=
  { idCounter := 1
    startTime := now
    rxPacketCounter := 0
    badRxPacketCounter := 0
    badRouteCounter := 0
    lastRxTime := now
    packetReport := List.replicate packetReportSlots ⟨0, 0, 0⟩
    packetReportPtr := 0
    routingTable := List.replicate 64 NO_ROUTE }

/-- The observable effects of one `_process` invocation.  `transmits` is
the ordered list of `transmitIfPossible` calls (each a packet and its
transmit length, whether it goes to loopback RX or to the outbound packet
manager); `logs` abbreviates the log lines (error messages verbatim);
`ackProcessed` records a hand-off to `opm.processAck`; `restartCalled`
records a call to `instrumentation.restart()`; `countersResetCalled`
records a call to `resetCounters()`; `textNullIndex` records the index
into the 128-byte TEXT scratch buffer at which the null terminator is
written (the `memcpy` covers all smaller indices). -/
structure Effects where
  transmits : List (Packet × Nat) := []
  logs : List String := []
  ackProcessed : Option Packet := none
  restartCalled : Bool := false
  countersResetCalled : Bool := false
  textNullIndex : Option Nat := none
deriving DecidableEq, Repr

/-- The verbatim error string for malformed frames. -/
def msg_bad_message : String := "ERR: Bad message"

/-- The verbatim error string for missing routes. -/
def msg_no_route : String := "ERR: No route"

/-- The verbatim error string for failed authorization. -/
def msg_no_auth : String := "ERR: Unauthorized"

/-- 128 bytes: the size of the TEXT scratch buffer `char scratch[128]`. -/
def textScratchSize : Nat := 128

/-- The transmit list contributed by ACK synthesis: when the received
header has the ACK-required bit set, one bare-header ACK frame built by
`setupAckFor`, transmitted with length `sizeof(Header)`; otherwise none. -/
def ackTxFor (cfg : Configuration) (packet : Packet) : List (Packet × Nat) :=
  if packet.header.isAckRequired then
    [(⟨packet.header.setupAckFor cfg, []⟩, sizeofHeader)]
  else []

/-- The info log line emitted by `log_packet` when the log level is
positive (abbreviated to its constant prefix). -/
def infoLogsFor (cfg : Configuration) : List String :=
  if 0 < cfg.logLevel then ["INF: Got type:"] else []

/-- The log lines of the duplicate-drop branch. -/
def dupLogsFor (cfg : Configuration) : List String :=
  if 0 < cfg.logLevel then ["INF: Ignored duplicate from"] else []

/-- Step 4 of `_process`: bump `_rxPacketCounter` and update
`_lastRxTime`. -/
def bumpRx (now : Nat) (s : MPState) : MPState :=
  { s with rxPacketCounter := inc16 s.rxPacketCounter, lastRxTime := now }

/-- Step 8 of `_process`: record the packet in the dedup ring at the
current ring pointer and advance the pointer modulo the slot count. -/
def recordPacket (now : Nat) (packet : Packet) (s : MPState) : MPState :=
  { s with
    packetReport := s.packetReport.set s.packetReportPtr
      ⟨packet.header.originalSourceAddr, packet.header.id, now⟩,
    packetReportPtr := (s.packetReportPtr + 1) % packetReportSlots }


/-- The PING_REQ handler (lines 251-261): build a PING_RESP via
`setupResponseFor` addressed back through `firstHop` and transmit the bare
header. -/
def handlePingReq (cfg : Configuration) (s2 : MPState) (packet : Packet)
    (firstHop : Nat) : MPState × Effects :=
  let su := getUniqueId s2
  (su.2, { transmits := ackTxFor cfg packet ++
             [(⟨packet.header.setupResponseFor cfg TYPE_PING_RESP su.1 firstHop, []⟩,
               sizeofHeader)],
           logs := infoLogsFor cfg })

/-- The GETSED_REQ handler (lines 263-297): build a GETSED_RESP carrying
the instrumentation snapshot, the uptime, the diagnostic counters and the
last-hop RSSI, and transmit it. -/
def handleGetSedReq (cfg : Configuration) (inst : Instrumentation) (now : Nat)
    (s2 : MPState) (rssi : Nat) (packet : Packet) (firstHop : Nat) :
    MPState × Effects :=
  let su := getUniqueId s2
  let resp : Packet :=
    ⟨packet.header.setupResponseFor cfg TYPE_GETSED_RESP su.1 firstHop,
     encodeSadResp inst.softwareVersion inst.batteryVoltage
       inst.panelVoltage ((now - s2.startTime) / 1000) now
       cfg.bootCount cfg.sleepCount rssi inst.temperature
       inst.humidity inst.deviceClass inst.deviceRevision
       s2.rxPacketCounter s2.badRxPacketCounter s2.badRouteCounter⟩
  (su.2, { transmits := ackTxFor cfg packet ++
             [(resp, sizeofHeader + sizeofSadRespPayload)],
           logs := infoLogsFor cfg })

/-- The RESET / RESET_COUNTERS handler (lines 299-320): length check, then
passcode check, then restart or counter reset according to the type. -/
def handleResetOrCounters (cfg : Configuration) (s2 : MPState) (packet : Packet)
    (packetLen : Nat) : MPState × Effects :=
  if packetLen < sizeofHeader + sizeofResetReqPayload then
    (s2, { transmits := ackTxFor cfg packet,
           logs := infoLogsFor cfg ++ [msg_bad_message] })
  else
    -- Authorization check on the decoded ResetReqPayload
    if ¬ cfg.checkPasscode (decodeResetReq packet.payload).passcode then
      (s2, { transmits := ackTxFor cfg packet,
             logs := infoLogsFor cfg ++ [msg_no_auth] })
    else if packet.header.getType = TYPE_RESET then
      (s2, { transmits := ackTxFor cfg packet, logs := infoLogsFor cfg,
             restartCalled := true })
    else if packet.header.getType = TYPE_RESET_COUNTERS then
      (resetCounters s2,
       { transmits := ackTxFor cfg packet,
         logs := infoLogsFor cfg ++ ["INF: Reset counters"],
         countersResetCalled := true })
    else
      (s2, { transmits := ackTxFor cfg packet, logs := infoLogsFor cfg })

/-- The GETSED_RESP handler (lines 322-357): length check, then display. -/
def handleGetSedResp (cfg : Configuration) (s2 : MPState) (packet : Packet)
    (packetLen : Nat) : MPState × Effects :=
  if packetLen < sizeofHeader + sizeofSadRespPayload then
    (s2, { transmits := ackTxFor cfg packet,
           logs := infoLogsFor cfg ++ [msg_bad_message] })
  else
    (s2, { transmits := ackTxFor cfg packet,
           logs := infoLogsFor cfg ++ ["GETSED_RESP:"] })

/-- The PING_RESP handler (lines 359-367): display only. -/
def handlePingResp (cfg : Configuration) (s2 : MPState) (packet : Packet) :
    MPState × Effects :=
  (s2, { transmits := ackTxFor cfg packet,
         logs := infoLogsFor cfg ++ ["PING_RESP:"] })

/-- The second RESET branch (lines 369-373), kept faithfully although the
earlier RESET/RESET_COUNTERS branch shadows it: restart with no passcode
check. -/
def handleResetNoAuth (cfg : Configuration) (s2 : MPState) (packet : Packet) :
    MPState × Effects :=
  (s2, { transmits := ackTxFor cfg packet,
         logs := infoLogsFor cfg ++ ["INF: Resetting"], restartCalled := true })

/-- The TEXT handler (lines 375-400): copy `packetLen - sizeof(Header)`
payload bytes into `char scratch[128]`, null-terminate at that index, and
display in one of two formats. -/
def handleText (cfg : Configuration) (s2 : MPState) (packet : Packet)
    (packetLen : Nat) : MPState × Effects :=
  (s2, { transmits := ackTxFor cfg packet,
         logs := infoLogsFor cfg ++
           (if cfg.commandMode = 1 then ["TEXT:"] else ["MSG:"]),
         textNullIndex := some (packetLen - sizeofHeader) })

/-- The SETROUTE handler (lines 402-425): length check, passcode check,
then store the route. -/
def handleSetRoute (cfg : Configuration) (s2 : MPState) (packet : Packet)
    (packetLen : Nat) : MPState × Effects :=
  if packetLen < sizeofHeader + sizeofSetRouteReqPayload then
    (s2, { transmits := ackTxFor cfg packet,
           logs := infoLogsFor cfg ++ [msg_bad_message] })
  else
    -- Authorization check on the decoded SetRouteReqPayload
    if ¬ cfg.checkPasscode (decodeSetRouteReq packet.payload).passcode then
      (s2, { transmits := ackTxFor cfg packet,
             logs := infoLogsFor cfg ++ [msg_no_auth] })
    else
      ({ s2 with routingTable :=
           (RoutingTable.setRoute s2.routingTable
             (decodeSetRouteReq packet.payload).targetAddr
             (decodeSetRouteReq packet.payload).nextHopAddr) },
       { transmits := ackTxFor cfg packet,
         logs := infoLogsFor cfg ++ ["INF: Set route"] })

/-- The GETROUTE_REQ handler (lines 427-462): length check, route lookup,
response with the route and the (currently zero) per-route counters. -/
def handleGetRouteReq (cfg : Configuration) (s2 : MPState) (packet : Packet)
    (packetLen : Nat) (firstHop : Nat) : MPState × Effects :=
  if packetLen < sizeofHeader + sizeofGetRouteReqPayload then
    (s2, { transmits := ackTxFor cfg packet,
           logs := infoLogsFor cfg ++ [msg_bad_message] })
  else
    let payload := decodeGetRouteReq packet.payload
    let nh := RoutingTable.nextHop s2.routingTable payload.targetAddr
    let su := getUniqueId s2
    let resp : Packet :=
      ⟨packet.header.setupResponseFor cfg TYPE_GETROUTE_RESP su.1 firstHop,
       encodeGetRouteResp payload.targetAddr nh 0 0⟩
    (su.2, { transmits := ackTxFor cfg packet ++
               [(resp, sizeofHeader + sizeofGetRouteRespPayload)],
             logs := infoLogsFor cfg })

/-- The GETROUTE_RESP handler (lines 464-485): length check, then display. -/
def handleGetRouteResp (cfg : Configuration) (s2 : MPState) (packet : Packet)
    (packetLen : Nat) : MPState × Effects :=
  if packetLen < sizeofHeader + sizeofGetRouteRespPayload then
    (s2, { transmits := ackTxFor cfg packet,
           logs := infoLogsFor cfg ++ [msg_bad_message] })
  else
    (s2, { transmits := ackTxFor cfg packet,
           logs := infoLogsFor cfg ++ ["GETROUTE_RESP:"] })

/-- The local-dispatch section of `MessageProcessor::_process` (the `else`
taken when `finalDestAddr` equals the node's own address, lines 231-489 of
`MessageProcessor.cpp`): the return-route check, then the per-type
dispatch chain in source order.  `s2` is the state after the receive
bookkeeping and the dedup record. -/
def processLocal (cfg : Configuration) (inst : Instrumentation) (now : Nat)
    (s2 : MPState) (rssi : Nat) (packet : Packet) (packetLen : Nat) :
    MPState × Effects :=
  -- The first hop for the response message (routing back towards the
  -- origin) is RoutingTable.nextHop of the original source address
  if packet.header.isResponseRequired ∧
      RoutingTable.nextHop s2.routingTable packet.header.getOriginalSourceAddr
        = NO_ROUTE then
    ({ s2 with badRouteCounter := inc16 s2.badRouteCounter },
     { transmits := ackTxFor cfg packet,
       logs := infoLogsFor cfg ++ ["ERR: No route to"] })
  else if packet.header.getType = TYPE_PING_REQ then
    handlePingReq cfg s2 packet
      (RoutingTable.nextHop s2.routingTable packet.header.getOriginalSourceAddr)
  else if packet.header.getType = TYPE_GETSED_REQ then
    handleGetSedReq cfg inst now s2 rssi packet
      (RoutingTable.nextHop s2.routingTable packet.header.getOriginalSourceAddr)
  else if packet.header.getType = TYPE_RESET ∨
      packet.header.getType = TYPE_RESET_COUNTERS then
    handleResetOrCounters cfg s2 packet packetLen
  else if packet.header.getType = TYPE_GETSED_RESP then
    handleGetSedResp cfg s2 packet packetLen
  else if packet.header.getType = TYPE_PING_RESP then
    handlePingResp cfg s2 packet
  else if packet.header.getType = TYPE_RESET then
    handleResetNoAuth cfg s2 packet
  else if packet.header.getType = TYPE_TEXT then
    handleText cfg s2 packet packetLen
  else if packet.header.getType = TYPE_SETROUTE then
    handleSetRoute cfg s2 packet packetLen
  else if packet.header.getType = TYPE_GETROUTE_REQ then
    handleGetRouteReq cfg s2 packet packetLen
      (RoutingTable.nextHop s2.routingTable packet.header.getOriginalSourceAddr)
  else if packet.header.getType = TYPE_GETROUTE_RESP then
    handleGetRouteResp cfg s2 packet packetLen
  else
    (s2, { transmits := ackTxFor cfg packet,
           logs := infoLogsFor cfg ++ ["ERR: Unknown message"] })
/-- Steps 9-10 of `MessageProcessor::_process`: forward the packet towards
its final destination when that is another node (lines 198-229), else
dispatch it locally.  `s2` is the state after the receive bookkeeping and
the dedup record. -/
def processRouted (cfg : Configuration) (inst : Instrumentation) (now : Nat)
    (s2 : MPState) (rssi : Nat) (packet : Packet) (packetLen : Nat) :
    MPState × Effects :=
  if packet.header.getFinalDestAddr ≠ cfg.addr then
    -- Forward route towards the final destination
    if RoutingTable.nextHop s2.routingTable packet.header.getFinalDestAddr
        ≠ NO_ROUTE then
      let su := getUniqueId s2
      let outPacket : Packet :=
        { packet with header :=
            (((packet.header.setId su.1).setDestAddr
                (RoutingTable.nextHop s2.routingTable packet.header.getFinalDestAddr)).setSourceAddr cfg.addr) }
      -- Same length that was received
      (su.2, { transmits := ackTxFor cfg packet ++ [(outPacket, packetLen)],
               logs := infoLogsFor cfg ++
                 (if 0 < cfg.logLevel then ["INF: Forward to"] else []) })
    else
      ({ s2 with badRouteCounter := inc16 s2.badRouteCounter },
       { transmits := ackTxFor cfg packet, logs := infoLogsFor cfg ++ [msg_no_route] })
  else
    processLocal cfg inst now s2 rssi packet packetLen

/-- `MessageProcessor::_process(rssi, packet, packetLen)`, translated
branch for branch from `MessageProcessor.cpp`: framing check, version
check, address filter, receive bookkeeping, ACK fast path, ACK synthesis,
duplicate check, dedup record, then forwarding or local dispatch via
`processRouted`.  `now` stands for `_clock.time()` (the clock does not
advance inside one invocation).  The result is the updated processor
state and the observable effects. -/
def _process (cfg : Configuration) (inst : Instrumentation) (now : Nat)
    (s : MPState) (rssi : Nat) (packet : Packet) (packetLen : Nat) :
    MPState × Effects :=
  -- Error checking on new packet
  if packetLen < sizeofHeader then
    ({ s with badRxPacketCounter := inc16 s.badRxPacketCounter },
     { logs := [msg_bad_message] })
  -- Ignore messages that are for different versions of the protocol
  else if packet.header.getPacketVersion ≠ PACKET_VERSION then
    ({ s with badRxPacketCounter := inc16 s.badRxPacketCounter },
     { logs := [msg_bad_message] })
  -- Ignore messages that are not targeted at this node
  else if packet.header.getDestAddr ≠ BROADCAST_ADDR ∧
      packet.header.getDestAddr ≠ cfg.addr then
    (s, { logs := if 0 < cfg.logLevel then ["INF: Ignored packet for"] else [] })
  -- Receive bookkeeping (bumpRx), then classify
  -- An ACK is handed to the outbound packet manager directly
  else if packet.header.isAck then
    (bumpRx now s, { logs := infoLogsFor cfg, ackProcessed := some packet })
  -- The ACK (if required) is generated before the duplicate check: the
  -- duplicate may exist precisely because our ACK was lost
  -- Duplicate check against the dedup ring
  else if (bumpRx now s).packetReport.any (fun r => r.isDuplicate packet now) then
    (bumpRx now s, { transmits := ackTxFor cfg packet,
                     logs := infoLogsFor cfg ++ dupLogsFor cfg })
  else
    -- Record the packet in the dedup ring, then forward or dispatch
    processRouted cfg inst now (recordPacket now packet (bumpRx now s)) rssi
      packet packetLen
/-- The payload length each locally handled type requires before its
payload is read, mirroring the per-type `packetLen` checks of `_process`
(types without such a check map to 0). -/
def requiredPayloadLen (t : Nat) : Nat :=
  if t = TYPE_RESET ∨ t = TYPE_RESET_COUNTERS then sizeofResetReqPayload
  else if t = TYPE_GETSED_RESP then sizeofSadRespPayload
  else if t = TYPE_SETROUTE then sizeofSetRouteReqPayload
  else if t = TYPE_GETROUTE_REQ then sizeofGetRouteReqPayload
  else if t = TYPE_GETROUTE_RESP then sizeofGetRouteRespPayload
  else 0

/-- Concrete configuration fixture for witnesses: node 1, log level 0,
command mode 0, passcode 1234. -/
def cfgFx : Configuration := ⟨1, 77, 3, 4, 0, 0, fun p => p == 1234⟩

/-- Concrete instrumentation fixture for witnesses. -/
def instFx : Instrumentation := ⟨10, 3800, 4000, 23, 87, 2, 1⟩

/-- Concrete state fixture for witnesses: freshly constructed at 10000 ms
with one route, 9 hopping via 5. -/
def sFx : MPState :=
  { initState 10000 with routingTable := (List.replicate 64 NO_ROUTE).set 9 5 }

/-- Concrete header fixture: an ACK-required TEXT packet from node 2 to
node 1, final destination 9, id 100. -/
def hdrFx : Header := ⟨PACKET_VERSION, TYPE_TEXT, false, true, 100, 2, 1, 2, 9, 55, 55⟩

/-- Concrete packet fixture to be forwarded towards node 9. -/
def pFwdFx : Packet := ⟨hdrFx, [72, 105]⟩

/-- Concrete overheard packet fixture: hop destination 3, not this node. -/
def pOverFx : Packet := ⟨{ hdrFx with destAddr := 3 }, []⟩

/-- Concrete TEXT packet fixture addressed to this node. -/
def pTextFx : Packet := ⟨{ hdrFx with finalDestAddr := 1, ackRequiredFlag := false }, [72, 105]⟩

/-- Concrete RESET packet fixture with the correct passcode 1234
(little-endian bytes 210, 4, 0, 0). -/
def pResetOkFx : Packet :=
  ⟨{ hdrFx with type := TYPE_RESET, finalDestAddr := 1, ackRequiredFlag := false },
   [210, 4, 0, 0]⟩

/-- Concrete RESET packet fixture with a wrong passcode 0. -/
def pResetBadFx : Packet :=
  ⟨{ hdrFx with type := TYPE_RESET, finalDestAddr := 1, ackRequiredFlag := false },
   [0, 0, 0, 0]⟩

/-- Concrete RESET_COUNTERS packet fixture with the correct passcode. -/
def pRCOkFx : Packet :=
  ⟨{ hdrFx with type := TYPE_RESET_COUNTERS, finalDestAddr := 1, ackRequiredFlag := false },
   [210, 4, 0, 0]⟩

/-- C7: `getUniqueId` returns a monotonically incrementing 16-bit counter:
a call returns the stored counter, the following call returns its
successor modulo 2^16, the stored counter always fits back in 16 bits, and
after returning 65535 the counter wraps to 0. -/
theorem getUniqueId_monotone_wrap (s : MPState) :
    (getUniqueId s).1 = s.idCounter ∧
    (getUniqueId (getUniqueId s).2).1 = ((getUniqueId s).1 + 1) % 65536 ∧
    (getUniqueId s).2.idCounter = ((getUniqueId s).1 + 1) % 65536 ∧
    (getUniqueId s).2.idCounter < 65536 ∧
    (getUniqueId { s with idCounter := 65535 }).2.idCounter = 0 := by
  refine ⟨rfl, rfl, rfl, Nat.mod_lt _ (by omega), by simp [getUniqueId, inc16]⟩

/-- C10: `resetCounters` sets the three diagnostic counters to zero and
changes nothing else of the processor state: the id counter, the start
time, the last-receive time, the dedup ring and its pointer, and the
routing table all keep their values. -/
theorem resetCounters_zeroes_only_counters (s : MPState) :
    (resetCounters s).rxPacketCounter = 0 ∧
    (resetCounters s).badRxPacketCounter = 0 ∧
    (resetCounters s).badRouteCounter = 0 ∧
    (resetCounters s).idCounter = s.idCounter ∧
    (resetCounters s).startTime = s.startTime ∧
    (resetCounters s).lastRxTime = s.lastRxTime ∧
    (resetCounters s).packetReport = s.packetReport ∧
    (resetCounters s).packetReportPtr = s.packetReportPtr ∧
    (resetCounters s).routingTable = s.routingTable :=
  ⟨rfl, rfl, rfl, rfl, rfl, rfl, rfl, rfl, rfl⟩

/-- C5: a well-formed received frame addressed to neither broadcast nor
this node is dropped as overheard traffic: the state (counters, dedup
ring, routing table) is returned unchanged and the effects are empty apart
from the optional info log line — no ACK, no forward, no response, no
hand-off to the outbound packet manager. -/
theorem overheard_frame_no_effect (cfg : Configuration) (inst : Instrumentation)
    (now : Nat) (s : MPState) (rssi : Nat) (packet : Packet) (packetLen : Nat)
    (hlen : sizeofHeader ≤ packetLen)
    (hver : packet.header.getPacketVersion = PACKET_VERSION)
    (hb : packet.header.getDestAddr ≠ BROADCAST_ADDR)
    (hs : packet.header.getDestAddr ≠ cfg.addr) :
    _process cfg inst now s rssi packet packetLen =
      (s, { logs := if 0 < cfg.logLevel then ["INF: Ignored packet for"] else [] }) := by
  unfold _process
  rw [if_neg (by omega), if_neg (by simp [hver]), if_pos ⟨hb, hs⟩]

/-- Witness for C5: a concrete overheard frame (hop destination 3 at
node 1) leaves the state untouched and produces no effects. -/
theorem overheard_frame_no_effect_witness :
    _process cfgFx instFx 20000 sFx 50 pOverFx 30 =
      (sFx, { logs := if 0 < cfgFx.logLevel then ["INF: Ignored packet for"] else [] }) :=
  overheard_frame_no_effect cfgFx instFx 20000 sFx 50 pOverFx 30
    (by decide) (by decide) (by decide) (by decide)

/-- Helper: the PING_REQ handler never fires the restart effect. -/
lemma handlePingReq_restartCalled (cfg : Configuration) (s2 : MPState)
    (packet : Packet) (firstHop : Nat) :
    (handlePingReq cfg s2 packet firstHop).2.restartCalled = false := rfl

/-- Helper: the GETSED_REQ handler never fires the restart effect. -/
lemma handleGetSedReq_restartCalled (cfg : Configuration) (inst : Instrumentation)
    (now : Nat) (s2 : MPState) (rssi : Nat) (packet : Packet) (firstHop : Nat) :
    (handleGetSedReq cfg inst now s2 rssi packet firstHop).2.restartCalled = false := rfl

/-- Helper: the GETSED_RESP handler never fires the restart effect. -/
lemma handleGetSedResp_restartCalled (cfg : Configuration) (s2 : MPState)
    (packet : Packet) (packetLen : Nat) :
    (handleGetSedResp cfg s2 packet packetLen).2.restartCalled = false := by
  unfold handleGetSedResp; split_ifs <;> rfl

/-- Helper: the PING_RESP handler never fires the restart effect. -/
lemma handlePingResp_restartCalled (cfg : Configuration) (s2 : MPState)
    (packet : Packet) :
    (handlePingResp cfg s2 packet).2.restartCalled = false := rfl

/-- Helper: the TEXT handler never fires the restart effect. -/
lemma handleText_restartCalled (cfg : Configuration) (s2 : MPState)
    (packet : Packet) (packetLen : Nat) :
    (handleText cfg s2 packet packetLen).2.restartCalled = false := rfl

/-- Helper: the SETROUTE handler never fires the restart effect. -/
lemma handleSetRoute_restartCalled (cfg : Configuration) (s2 : MPState)
    (packet : Packet) (packetLen : Nat) :
    (handleSetRoute cfg s2 packet packetLen).2.restartCalled = false := by
  unfold handleSetRoute; split_ifs <;> rfl

/-- Helper: the GETROUTE_REQ handler never fires the restart effect. -/
lemma handleGetRouteReq_restartCalled (cfg : Configuration) (s2 : MPState)
    (packet : Packet) (packetLen : Nat) (firstHop : Nat) :
    (handleGetRouteReq cfg s2 packet packetLen firstHop).2.restartCalled = false := by
  unfold handleGetRouteReq; split_ifs <;> rfl

/-- Helper: the GETROUTE_RESP handler never fires the restart effect. -/
lemma handleGetRouteResp_restartCalled (cfg : Configuration) (s2 : MPState)
    (packet : Packet) (packetLen : Nat) :
    (handleGetRouteResp cfg s2 packet packetLen).2.restartCalled = false := by
  unfold handleGetRouteResp; split_ifs <;> rfl

/-- Helper: the RESET/RESET_COUNTERS handler fires the restart effect only
when the type is RESET, the payload length check passed and the passcode
was accepted. -/
lemma handleResetOrCounters_restartCalled (cfg : Configuration) (s2 : MPState)
    (packet : Packet) (packetLen : Nat)
    (h : (handleResetOrCounters cfg s2 packet packetLen).2.restartCalled = true) :
    packet.header.getType = TYPE_RESET ∧
    sizeofHeader + sizeofResetReqPayload ≤ packetLen ∧
    cfg.checkPasscode (decodeResetReq packet.payload).passcode = true := by
  unfold handleResetOrCounters at h
  by_cases h1 : packetLen < sizeofHeader + sizeofResetReqPayload
  · rw [if_pos h1] at h
    exact absurd h Bool.false_ne_true
  rw [if_neg h1] at h
  by_cases h2 : ¬ cfg.checkPasscode (decodeResetReq packet.payload).passcode = true
  · rw [if_pos h2] at h
    exact absurd h Bool.false_ne_true
  rw [if_neg h2] at h
  by_cases h3 : packet.header.getType = TYPE_RESET
  · exact ⟨h3, by omega, not_not.mp h2⟩
  rw [if_neg h3] at h
  by_cases h4 : packet.header.getType = TYPE_RESET_COUNTERS
  · rw [if_pos h4] at h
    exact absurd h Bool.false_ne_true
  rw [if_neg h4] at h
  exact absurd h Bool.false_ne_true

/-- Helper: within the local dispatch chain, the restart effect fires only
in the authorized RESET branch; the passcode-free second RESET branch is
shadowed by the earlier RESET/RESET_COUNTERS test. -/
lemma processLocal_restartCalled (cfg : Configuration) (inst : Instrumentation)
    (now : Nat) (s2 : MPState) (rssi : Nat) (packet : Packet) (packetLen : Nat)
    (h : (processLocal cfg inst now s2 rssi packet packetLen).2.restartCalled = true) :
    packet.header.getType = TYPE_RESET ∧
    sizeofHeader + sizeofResetReqPayload ≤ packetLen ∧
    cfg.checkPasscode (decodeResetReq packet.payload).passcode = true := by
  unfold processLocal at h
  by_cases h1 : (packet.header.isResponseRequired = true ∧
      RoutingTable.nextHop s2.routingTable packet.header.getOriginalSourceAddr = NO_ROUTE)
  · rw [if_pos h1] at h
    exact absurd h Bool.false_ne_true
  rw [if_neg h1] at h
  by_cases h2 : packet.header.getType = TYPE_PING_REQ
  · rw [if_pos h2, handlePingReq_restartCalled] at h
    exact absurd h Bool.false_ne_true
  rw [if_neg h2] at h
  by_cases h3 : packet.header.getType = TYPE_GETSED_REQ
  · rw [if_pos h3, handleGetSedReq_restartCalled] at h
    exact absurd h Bool.false_ne_true
  rw [if_neg h3] at h
  by_cases h4 : (packet.header.getType = TYPE_RESET ∨
      packet.header.getType = TYPE_RESET_COUNTERS)
  · rw [if_pos h4] at h
    exact handleResetOrCounters_restartCalled _ _ _ _ h
  rw [if_neg h4] at h
  by_cases h5 : packet.header.getType = TYPE_GETSED_RESP
  · rw [if_pos h5, handleGetSedResp_restartCalled] at h
    exact absurd h Bool.false_ne_true
  rw [if_neg h5] at h
  by_cases h6 : packet.header.getType = TYPE_PING_RESP
  · rw [if_pos h6, handlePingResp_restartCalled] at h
    exact absurd h Bool.false_ne_true
  rw [if_neg h6] at h
  have h7 : ¬ packet.header.getType = TYPE_RESET := fun hr => h4 (Or.inl hr)
  rw [if_neg h7] at h
  by_cases h8 : packet.header.getType = TYPE_TEXT
  · rw [if_pos h8, handleText_restartCalled] at h
    exact absurd h Bool.false_ne_true
  rw [if_neg h8] at h
  by_cases h9 : packet.header.getType = TYPE_SETROUTE
  · rw [if_pos h9, handleSetRoute_restartCalled] at h
    exact absurd h Bool.false_ne_true
  rw [if_neg h9] at h
  by_cases h10 : packet.header.getType = TYPE_GETROUTE_REQ
  · rw [if_pos h10, handleGetRouteReq_restartCalled] at h
    exact absurd h Bool.false_ne_true
  rw [if_neg h10] at h
  by_cases h11 : packet.header.getType = TYPE_GETROUTE_RESP
  · rw [if_pos h11, handleGetRouteResp_restartCalled] at h
    exact absurd h Bool.false_ne_true
  rw [if_neg h11] at h
  exact absurd h Bool.false_ne_true

/-- Helper: the forwarding stage never fires the restart effect; only the
local dispatch can. -/
lemma processRouted_restartCalled (cfg : Configuration) (inst : Instrumentation)
    (now : Nat) (s2 : MPState) (rssi : Nat) (packet : Packet) (packetLen : Nat)
    (h : (processRouted cfg inst now s2 rssi packet packetLen).2.restartCalled = true) :
    packet.header.getType = TYPE_RESET ∧
    sizeofHeader + sizeofResetReqPayload ≤ packetLen ∧
    cfg.checkPasscode (decodeResetReq packet.payload).passcode = true := by
  unfold processRouted at h
  by_cases h1 : packet.header.getFinalDestAddr ≠ cfg.addr
  · rw [if_pos h1] at h
    by_cases h2 : RoutingTable.nextHop s2.routingTable packet.header.getFinalDestAddr ≠ NO_ROUTE
    · rw [if_pos h2] at h
      exact absurd h Bool.false_ne_true
    · rw [if_neg h2] at h
      exact absurd h Bool.false_ne_true
  · rw [if_neg h1] at h
    exact processLocal_restartCalled _ _ _ _ _ _ _ h

/-- C9: `instrumentation.restart()` fires from `_process` only after a
successful passcode verification: whenever the restart effect is set, the
packet's type is RESET, its payload length check passed, and
`checkPasscode` accepted the decoded passcode.  In particular the second,
passcode-free RESET branch of the dispatch chain is unreachable, being
shadowed by the earlier RESET/RESET_COUNTERS branch. -/
theorem restart_requires_passcode (cfg : Configuration) (inst : Instrumentation)
    (now : Nat) (s : MPState) (rssi : Nat) (packet : Packet) (packetLen : Nat)
    (h : (_process cfg inst now s rssi packet packetLen).2.restartCalled = true) :
    packet.header.getType = TYPE_RESET ∧
    sizeofHeader + sizeofResetReqPayload ≤ packetLen ∧
    cfg.checkPasscode (decodeResetReq packet.payload).passcode = true := by
  unfold _process at h
  by_cases h1 : packetLen < sizeofHeader
  · rw [if_pos h1] at h
    exact absurd h Bool.false_ne_true
  rw [if_neg h1] at h
  by_cases h2 : packet.header.getPacketVersion ≠ PACKET_VERSION
  · rw [if_pos h2] at h
    exact absurd h Bool.false_ne_true
  rw [if_neg h2] at h
  by_cases h3 : (packet.header.getDestAddr ≠ BROADCAST_ADDR ∧
      packet.header.getDestAddr ≠ cfg.addr)
  · rw [if_pos h3] at h
    exact absurd h Bool.false_ne_true
  rw [if_neg h3] at h
  by_cases h4 : packet.header.isAck = true
  · rw [if_pos h4] at h
    exact absurd h Bool.false_ne_true
  rw [if_neg h4] at h
  by_cases h5 : ((bumpRx now s).packetReport.any fun r => r.isDuplicate packet now) = true
  · rw [if_pos h5] at h
    exact absurd h Bool.false_ne_true
  rw [if_neg h5] at h
  exact processRouted_restartCalled _ _ _ _ _ _ _ h
/-- Witness for C9: on a concrete authorized RESET frame the restart
effect fires, and the theorem yields the passcode acceptance. -/
theorem restart_requires_passcode_witness :
    cfgFx.checkPasscode (decodeResetReq pResetOkFx.payload).passcode = true :=
  (restart_requires_passcode cfgFx instFx 20000 sFx 50 pResetOkFx 32 (by decide)).2.2

/-- C8 counterexample: a TEXT frame of the full packet size 256 is
accepted by `_process` and reaches the TEXT handler, which places the null
terminator at index 256 - sizeof(Header) = 228 of the 128-byte scratch
buffer — outside its bounds, refuting the claim that all accepted lengths
stay within the buffer. -/
theorem text_scratch_overflow_counterexample :
    (_process cfgFx instFx 20000 sFx 50 pTextFx 256).2.textNullIndex =
      some (256 - sizeofHeader) ∧
    ¬ (256 - sizeofHeader < textScratchSize) ∧ 256 ≤ sizeofPacket := by
  exact ⟨by decide, by decide, by decide⟩


/-- Helper: the PING_REQ handler performs no scratch-buffer write. -/
lemma handlePingReq_textNullIndex (cfg : Configuration) (s2 : MPState)
    (packet : Packet) (firstHop : Nat) :
    (handlePingReq cfg s2 packet firstHop).2.textNullIndex = none := rfl

/-- Helper: the GETSED_REQ handler performs no scratch-buffer write. -/
lemma handleGetSedReq_textNullIndex (cfg : Configuration) (inst : Instrumentation)
    (now : Nat) (s2 : MPState) (rssi : Nat) (packet : Packet) (firstHop : Nat) :
    (handleGetSedReq cfg inst now s2 rssi packet firstHop).2.textNullIndex = none := rfl

/-- Helper: the RESET/RESET_COUNTERS handler performs no scratch-buffer
write. -/
lemma handleResetOrCounters_textNullIndex (cfg : Configuration) (s2 : MPState)
    (packet : Packet) (packetLen : Nat) :
    (handleResetOrCounters cfg s2 packet packetLen).2.textNullIndex = none := by
  unfold handleResetOrCounters; split_ifs <;> rfl

/-- Helper: the GETSED_RESP handler performs no scratch-buffer write. -/
lemma handleGetSedResp_textNullIndex (cfg : Configuration) (s2 : MPState)
    (packet : Packet) (packetLen : Nat) :
    (handleGetSedResp cfg s2 packet packetLen).2.textNullIndex = none := by
  unfold handleGetSedResp; split_ifs <;> rfl

/-- Helper: the PING_RESP handler performs no scratch-buffer write. -/
lemma handlePingResp_textNullIndex (cfg : Configuration) (s2 : MPState)
    (packet : Packet) :
    (handlePingResp cfg s2 packet).2.textNullIndex = none := rfl

/-- Helper: the dead second RESET branch performs no scratch-buffer write. -/
lemma handleResetNoAuth_textNullIndex (cfg : Configuration) (s2 : MPState)
    (packet : Packet) :
    (handleResetNoAuth cfg s2 packet).2.textNullIndex = none := rfl

/-- Helper: the TEXT handler writes its null terminator at index
`packetLen - sizeof(Header)`. -/
lemma handleText_textNullIndex (cfg : Configuration) (s2 : MPState)
    (packet : Packet) (packetLen : Nat) :
    (handleText cfg s2 packet packetLen).2.textNullIndex =
      some (packetLen - sizeofHeader) := rfl

/-- Helper: the SETROUTE handler performs no scratch-buffer write. -/
lemma handleSetRoute_textNullIndex (cfg : Configuration) (s2 : MPState)
    (packet : Packet) (packetLen : Nat) :
    (handleSetRoute cfg s2 packet packetLen).2.textNullIndex = none := by
  unfold handleSetRoute; split_ifs <;> rfl

/-- Helper: the GETROUTE_REQ handler performs no scratch-buffer write. -/
lemma handleGetRouteReq_textNullIndex (cfg : Configuration) (s2 : MPState)
    (packet : Packet) (packetLen : Nat) (firstHop : Nat) :
    (handleGetRouteReq cfg s2 packet packetLen firstHop).2.textNullIndex = none := by
  unfold handleGetRouteReq; split_ifs <;> rfl

/-- Helper: the GETROUTE_RESP handler performs no scratch-buffer write. -/
lemma handleGetRouteResp_textNullIndex (cfg : Configuration) (s2 : MPState)
    (packet : Packet) (packetLen : Nat) :
    (handleGetRouteResp cfg s2 packet packetLen).2.textNullIndex = none := by
  unfold handleGetRouteResp; split_ifs <;> rfl

/-- Helper: within the local dispatch chain, only the TEXT handler writes
the scratch buffer, at null index `packetLen - sizeof(Header)`. -/
lemma processLocal_textNullIndex (cfg : Configuration) (inst : Instrumentation)
    (now : Nat) (s2 : MPState) (rssi : Nat) (packet : Packet) (packetLen : Nat)
    (i : Nat)
    (h : (processLocal cfg inst now s2 rssi packet packetLen).2.textNullIndex = some i) :
    i = packetLen - sizeofHeader := by
  unfold processLocal at h
  by_cases h1 : (packet.header.isResponseRequired = true ∧
      RoutingTable.nextHop s2.routingTable packet.header.getOriginalSourceAddr = NO_ROUTE)
  · rw [if_pos h1] at h
    exact Option.noConfusion h
  rw [if_neg h1] at h
  by_cases h2 : packet.header.getType = TYPE_PING_REQ
  · rw [if_pos h2, handlePingReq_textNullIndex] at h
    exact Option.noConfusion h
  rw [if_neg h2] at h
  by_cases h3 : packet.header.getType = TYPE_GETSED_REQ
  · rw [if_pos h3, handleGetSedReq_textNullIndex] at h
    exact Option.noConfusion h
  rw [if_neg h3] at h
  by_cases h4 : (packet.header.getType = TYPE_RESET ∨
      packet.header.getType = TYPE_RESET_COUNTERS)
  · rw [if_pos h4, handleResetOrCounters_textNullIndex] at h
    exact Option.noConfusion h
  rw [if_neg h4] at h
  by_cases h5 : packet.header.getType = TYPE_GETSED_RESP
  · rw [if_pos h5, handleGetSedResp_textNullIndex] at h
    exact Option.noConfusion h
  rw [if_neg h5] at h
  by_cases h6 : packet.header.getType = TYPE_PING_RESP
  · rw [if_pos h6, handlePingResp_textNullIndex] at h
    exact Option.noConfusion h
  rw [if_neg h6] at h
  have h7 : ¬ packet.header.getType = TYPE_RESET := fun hr => h4 (Or.inl hr)
  rw [if_neg h7] at h
  by_cases h8 : packet.header.getType = TYPE_TEXT
  · rw [if_pos h8, handleText_textNullIndex] at h
    exact (Option.some.inj h).symm
  rw [if_neg h8] at h
  by_cases h9 : packet.header.getType = TYPE_SETROUTE
  · rw [if_pos h9, handleSetRoute_textNullIndex] at h
    exact Option.noConfusion h
  rw [if_neg h9] at h
  by_cases h10 : packet.header.getType = TYPE_GETROUTE_REQ
  · rw [if_pos h10, handleGetRouteReq_textNullIndex] at h
    exact Option.noConfusion h
  rw [if_neg h10] at h
  by_cases h11 : packet.header.getType = TYPE_GETROUTE_RESP
  · rw [if_pos h11, handleGetRouteResp_textNullIndex] at h
    exact Option.noConfusion h
  rw [if_neg h11] at h
  exact Option.noConfusion h

/-- Helper: the forwarding stage performs no scratch-buffer write; only the
TEXT handler of the local dispatch does. -/
lemma processRouted_textNullIndex (cfg : Configuration) (inst : Instrumentation)
    (now : Nat) (s2 : MPState) (rssi : Nat) (packet : Packet) (packetLen : Nat)
    (i : Nat)
    (h : (processRouted cfg inst now s2 rssi packet packetLen).2.textNullIndex = some i) :
    i = packetLen - sizeofHeader := by
  unfold processRouted at h
  by_cases h1 : packet.header.getFinalDestAddr ≠ cfg.addr
  · rw [if_pos h1] at h
    by_cases h2 : RoutingTable.nextHop s2.routingTable packet.header.getFinalDestAddr ≠ NO_ROUTE
    · rw [if_pos h2] at h
      exact Option.noConfusion h
    · rw [if_neg h2] at h
      exact Option.noConfusion h
  · rw [if_neg h1] at h
    exact processLocal_textNullIndex _ _ _ _ _ _ _ _ h

/-- C8 amended: the TEXT handler writes its null terminator at index
`packetLen - sizeof(Header)` of `char scratch[128]` (the byte copy covers
all smaller indices), and that access is in bounds iff
`packetLen < sizeof(Header) + 128 = 156`; accepted lengths up to the full
packet size 256 therefore overflow the buffer. -/
theorem text_scratch_bounds (cfg : Configuration) (inst : Instrumentation)
    (now : Nat) (s : MPState) (rssi : Nat) (packet : Packet) (packetLen : Nat)
    (i : Nat)
    (h : (_process cfg inst now s rssi packet packetLen).2.textNullIndex = some i) :
    i = packetLen - sizeofHeader ∧
    (i < textScratchSize ↔ packetLen < sizeofHeader + textScratchSize) := by
  unfold _process at h
  by_cases h1 : packetLen < sizeofHeader
  · rw [if_pos h1] at h
    exact Option.noConfusion h
  rw [if_neg h1] at h
  by_cases h2 : packet.header.getPacketVersion ≠ PACKET_VERSION
  · rw [if_pos h2] at h
    exact Option.noConfusion h
  rw [if_neg h2] at h
  by_cases h3 : (packet.header.getDestAddr ≠ BROADCAST_ADDR ∧
      packet.header.getDestAddr ≠ cfg.addr)
  · rw [if_pos h3] at h
    exact Option.noConfusion h
  rw [if_neg h3] at h
  by_cases h4 : packet.header.isAck = true
  · rw [if_pos h4] at h
    exact Option.noConfusion h
  rw [if_neg h4] at h
  by_cases h5 : ((bumpRx now s).packetReport.any fun r => r.isDuplicate packet now) = true
  · rw [if_pos h5] at h
    exact Option.noConfusion h
  rw [if_neg h5] at h
  have hi := processRouted_textNullIndex _ _ _ _ _ _ _ _ h
  refine ⟨hi, ?_⟩
  rw [hi]
  simp only [sizeofHeader, textScratchSize] at h1 ⊢
  omega
/-- Witness for C8 amended: a concrete 100-byte TEXT frame puts the null
terminator at index 72, in bounds since 100 < 156. -/
theorem text_scratch_bounds_witness :
    (72 : Nat) = 100 - sizeofHeader ∧
    ((72 : Nat) < textScratchSize ↔ (100 : Nat) < sizeofHeader + textScratchSize) :=
  text_scratch_bounds cfgFx instFx 20000 sFx 50 pTextFx 100 72 (by decide)

/-- Helper: every local handler's transmit list starts with the ACK
contribution `ackTxFor` (possibly followed by a response). -/
lemma handlePingReq_transmits (cfg : Configuration) (s2 : MPState)
    (packet : Packet) (firstHop : Nat) :
    ∃ t, (handlePingReq cfg s2 packet firstHop).2.transmits =
      ackTxFor cfg packet ++ t := ⟨_, rfl⟩

/-- Helper: the GETSED_REQ handler's transmits start with `ackTxFor`. -/
lemma handleGetSedReq_transmits (cfg : Configuration) (inst : Instrumentation)
    (now : Nat) (s2 : MPState) (rssi : Nat) (packet : Packet) (firstHop : Nat) :
    ∃ t, (handleGetSedReq cfg inst now s2 rssi packet firstHop).2.transmits =
      ackTxFor cfg packet ++ t := ⟨_, rfl⟩

/-- Helper: the RESET/RESET_COUNTERS handler's transmits are exactly
`ackTxFor`. -/
lemma handleResetOrCounters_transmits (cfg : Configuration) (s2 : MPState)
    (packet : Packet) (packetLen : Nat) :
    ∃ t, (handleResetOrCounters cfg s2 packet packetLen).2.transmits =
      ackTxFor cfg packet ++ t := by
  unfold handleResetOrCounters
  split_ifs <;> exact ⟨[], (List.append_nil _).symm⟩

/-- Helper: the GETSED_RESP handler's transmits are exactly `ackTxFor`. -/
lemma handleGetSedResp_transmits (cfg : Configuration) (s2 : MPState)
    (packet : Packet) (packetLen : Nat) :
    ∃ t, (handleGetSedResp cfg s2 packet packetLen).2.transmits =
      ackTxFor cfg packet ++ t := by
  unfold handleGetSedResp
  split_ifs <;> exact ⟨[], (List.append_nil _).symm⟩

/-- Helper: the PING_RESP handler's transmits are exactly `ackTxFor`. -/
lemma handlePingResp_transmits (cfg : Configuration) (s2 : MPState)
    (packet : Packet) :
    ∃ t, (handlePingResp cfg s2 packet).2.transmits =
      ackTxFor cfg packet ++ t := ⟨[], (List.append_nil _).symm⟩

/-- Helper: the dead second RESET branch's transmits are exactly
`ackTxFor`. -/
lemma handleResetNoAuth_transmits (cfg : Configuration) (s2 : MPState)
    (packet : Packet) :
    ∃ t, (handleResetNoAuth cfg s2 packet).2.transmits =
      ackTxFor cfg packet ++ t := ⟨[], (List.append_nil _).symm⟩

/-- Helper: the TEXT handler's transmits are exactly `ackTxFor`. -/
lemma handleText_transmits (cfg : Configuration) (s2 : MPState)
    (packet : Packet) (packetLen : Nat) :
    ∃ t, (handleText cfg s2 packet packetLen).2.transmits =
      ackTxFor cfg packet ++ t := ⟨[], (List.append_nil _).symm⟩

/-- Helper: the SETROUTE handler's transmits are exactly `ackTxFor`. -/
lemma handleSetRoute_transmits (cfg : Configuration) (s2 : MPState)
    (packet : Packet) (packetLen : Nat) :
    ∃ t, (handleSetRoute cfg s2 packet packetLen).2.transmits =
      ackTxFor cfg packet ++ t := by
  unfold handleSetRoute
  split_ifs <;> exact ⟨[], (List.append_nil _).symm⟩

/-- Helper: the GETROUTE_REQ handler's transmits start with `ackTxFor`. -/
lemma handleGetRouteReq_transmits (cfg : Configuration) (s2 : MPState)
    (packet : Packet) (packetLen : Nat) (firstHop : Nat) :
    ∃ t, (handleGetRouteReq cfg s2 packet packetLen firstHop).2.transmits =
      ackTxFor cfg packet ++ t := by
  unfold handleGetRouteReq
  split_ifs
  · exact ⟨[], (List.append_nil _).symm⟩
  · exact ⟨_, rfl⟩

/-- Helper: the GETROUTE_RESP handler's transmits are exactly `ackTxFor`. -/
lemma handleGetRouteResp_transmits (cfg : Configuration) (s2 : MPState)
    (packet : Packet) (packetLen : Nat) :
    ∃ t, (handleGetRouteResp cfg s2 packet packetLen).2.transmits =
      ackTxFor cfg packet ++ t := by
  unfold handleGetRouteResp
  split_ifs <;> exact ⟨[], (List.append_nil _).symm⟩

/-- Helper: every local-dispatch outcome's transmit list starts with the
ACK contribution. -/
lemma processLocal_transmits (cfg : Configuration) (inst : Instrumentation)
    (now : Nat) (s2 : MPState) (rssi : Nat) (packet : Packet) (packetLen : Nat) :
    ∃ t, (processLocal cfg inst now s2 rssi packet packetLen).2.transmits =
      ackTxFor cfg packet ++ t := by
  unfold processLocal
  by_cases h1 : (packet.header.isResponseRequired = true ∧
      RoutingTable.nextHop s2.routingTable packet.header.getOriginalSourceAddr = NO_ROUTE)
  · rw [if_pos h1]
    exact ⟨[], (List.append_nil _).symm⟩
  rw [if_neg h1]
  by_cases h2 : packet.header.getType = TYPE_PING_REQ
  · rw [if_pos h2]
    exact handlePingReq_transmits _ _ _ _
  rw [if_neg h2]
  by_cases h3 : packet.header.getType = TYPE_GETSED_REQ
  · rw [if_pos h3]
    exact handleGetSedReq_transmits _ _ _ _ _ _ _
  rw [if_neg h3]
  by_cases h4 : (packet.header.getType = TYPE_RESET ∨
      packet.header.getType = TYPE_RESET_COUNTERS)
  · rw [if_pos h4]
    exact handleResetOrCounters_transmits _ _ _ _
  rw [if_neg h4]
  by_cases h5 : packet.header.getType = TYPE_GETSED_RESP
  · rw [if_pos h5]
    exact handleGetSedResp_transmits _ _ _ _
  rw [if_neg h5]
  by_cases h6 : packet.header.getType = TYPE_PING_RESP
  · rw [if_pos h6]
    exact handlePingResp_transmits _ _ _
  rw [if_neg h6]
  have h7 : ¬ packet.header.getType = TYPE_RESET := fun hr => h4 (Or.inl hr)
  rw [if_neg h7]
  by_cases h8 : packet.header.getType = TYPE_TEXT
  · rw [if_pos h8]
    exact handleText_transmits _ _ _ _
  rw [if_neg h8]
  by_cases h9 : packet.header.getType = TYPE_SETROUTE
  · rw [if_pos h9]
    exact handleSetRoute_transmits _ _ _ _
  rw [if_neg h9]
  by_cases h10 : packet.header.getType = TYPE_GETROUTE_REQ
  · rw [if_pos h10]
    exact handleGetRouteReq_transmits _ _ _ _ _
  rw [if_neg h10]
  by_cases h11 : packet.header.getType = TYPE_GETROUTE_RESP
  · rw [if_pos h11]
    exact handleGetRouteResp_transmits _ _ _ _
  rw [if_neg h11]
  exact ⟨[], (List.append_nil _).symm⟩

/-- Helper: every routed outcome's transmit list starts with the ACK
contribution. -/
lemma processRouted_transmits (cfg : Configuration) (inst : Instrumentation)
    (now : Nat) (s2 : MPState) (rssi : Nat) (packet : Packet) (packetLen : Nat) :
    ∃ t, (processRouted cfg inst now s2 rssi packet packetLen).2.transmits =
      ackTxFor cfg packet ++ t := by
  unfold processRouted
  by_cases h1 : packet.header.getFinalDestAddr ≠ cfg.addr
  · rw [if_pos h1]
    by_cases h2 : RoutingTable.nextHop s2.routingTable packet.header.getFinalDestAddr ≠ NO_ROUTE
    · rw [if_pos h2]
      exact ⟨_, rfl⟩
    · rw [if_neg h2]
      exact ⟨[], (List.append_nil _).symm⟩
  · rw [if_neg h1]
    exact processLocal_transmits _ _ _ _ _ _ _

/-- C1: every accepted non-ACK packet whose header requires an ACK causes
an ACK frame built by `setupAckFor` — id copied from the received packet,
`destAddr` the received packet's `sourceAddr`, ACK bit set, ACK-required
bit clear — to be enqueued as the very first transmit, before any response
or forward derived from the packet; the duplicate check runs only
afterwards, so a duplicate packet still yields the ACK. -/
theorem ack_enqueued_first (cfg : Configuration) (inst : Instrumentation)
    (now : Nat) (s : MPState) (rssi : Nat) (packet : Packet) (packetLen : Nat)
    (hlen : sizeofHeader ≤ packetLen)
    (hver : packet.header.getPacketVersion = PACKET_VERSION)
    (haddr : packet.header.getDestAddr = BROADCAST_ADDR ∨
      packet.header.getDestAddr = cfg.addr)
    (hack : packet.header.isAck = false)
    (hreq : packet.header.isAckRequired = true) :
    (_process cfg inst now s rssi packet packetLen).2.transmits.head? =
      some (⟨packet.header.setupAckFor cfg, []⟩, sizeofHeader) ∧
    (packet.header.setupAckFor cfg).id = packet.header.id ∧
    (packet.header.setupAckFor cfg).destAddr = packet.header.sourceAddr ∧
    (packet.header.setupAckFor cfg).ackFlag = true ∧
    (packet.header.setupAckFor cfg).ackRequiredFlag = false := by
  refine ⟨?_, rfl, rfl, rfl, rfl⟩
  have hpre : ∃ t, (_process cfg inst now s rssi packet packetLen).2.transmits =
      ackTxFor cfg packet ++ t := by
    unfold _process
    rw [if_neg (by omega), if_neg (by simp [hver]), if_neg (by tauto),
      if_neg (by simp [Header.isAck] at hack ⊢; simp [hack])]
    by_cases hdup : ((bumpRx now s).packetReport.any fun r => r.isDuplicate packet now) = true
    · rw [if_pos hdup]
      exact ⟨[], (List.append_nil _).symm⟩
    · rw [if_neg hdup]
      exact processRouted_transmits _ _ _ _ _ _ _
  obtain ⟨t, ht⟩ := hpre
  rw [ht]
  simp [ackTxFor, hreq]

/-- Witness for C1: the concrete ACK-required forwarded TEXT frame gets
its ACK as the first transmit, with the id and hop-destination copied from
the request. -/
theorem ack_enqueued_first_witness :
    (_process cfgFx instFx 20000 sFx 50 pFwdFx 30).2.transmits.head? =
      some (⟨pFwdFx.header.setupAckFor cfgFx, []⟩, sizeofHeader) ∧
    (pFwdFx.header.setupAckFor cfgFx).id = pFwdFx.header.id ∧
    (pFwdFx.header.setupAckFor cfgFx).destAddr = pFwdFx.header.sourceAddr ∧
    (pFwdFx.header.setupAckFor cfgFx).ackFlag = true ∧
    (pFwdFx.header.setupAckFor cfgFx).ackRequiredFlag = false :=
  ack_enqueued_first cfgFx instFx 20000 sFx 50 pFwdFx 30
    (by decide) (by decide) (by decide) (by decide) (by decide)

/-- Helper: an accepted, non-ACK, non-duplicate frame reduces `_process`
to the routed stage over the bumped-and-recorded state. -/
lemma process_reduces_nondup (cfg : Configuration) (inst : Instrumentation)
    (now : Nat) (s : MPState) (rssi : Nat) (packet : Packet) (packetLen : Nat)
    (hlen : sizeofHeader ≤ packetLen)
    (hver : packet.header.getPacketVersion = PACKET_VERSION)
    (haddr : packet.header.getDestAddr = BROADCAST_ADDR ∨
      packet.header.getDestAddr = cfg.addr)
    (hack : packet.header.isAck = false)
    (hdup : (s.packetReport.any fun r => r.isDuplicate packet now) = false) :
    _process cfg inst now s rssi packet packetLen =
      processRouted cfg inst now (recordPacket now packet (bumpRx now s)) rssi
        packet packetLen := by
  have hdup' : ((bumpRx now s).packetReport.any fun r => r.isDuplicate packet now) = false := hdup
  unfold _process
  rw [if_neg (by omega), if_neg (by simp [hver]), if_neg (by tauto),
    if_neg (by simp [hack]), if_neg (by simp [hdup'])]

/-- Helper: an accepted, non-ACK frame matching the dedup ring reduces
`_process` to the duplicate-drop result: receive bookkeeping, the optional
ACK, the log lines, and nothing else. -/
lemma process_reduces_dup (cfg : Configuration) (inst : Instrumentation)
    (now : Nat) (s : MPState) (rssi : Nat) (packet : Packet) (packetLen : Nat)
    (hlen : sizeofHeader ≤ packetLen)
    (hver : packet.header.getPacketVersion = PACKET_VERSION)
    (haddr : packet.header.getDestAddr = BROADCAST_ADDR ∨
      packet.header.getDestAddr = cfg.addr)
    (hack : packet.header.isAck = false)
    (hdup : (s.packetReport.any fun r => r.isDuplicate packet now) = true) :
    _process cfg inst now s rssi packet packetLen =
      (bumpRx now s, { transmits := ackTxFor cfg packet,
                       logs := infoLogsFor cfg ++ dupLogsFor cfg }) := by
  have hdup' : ((bumpRx now s).packetReport.any fun r => r.isDuplicate packet now) = true := hdup
  unfold _process
  rw [if_neg (by omega), if_neg (by simp [hver]), if_neg (by tauto),
    if_neg (by simp [hack]), if_pos hdup']

/-- Helper: the forwarding branch taken with a live route: the forwarded
copy keeps the payload and every header field except id (fresh unique id),
destAddr (the next hop) and sourceAddr (self), and goes out with the
received length. -/
lemma processRouted_forward (cfg : Configuration) (inst : Instrumentation)
    (now : Nat) (s2 : MPState) (rssi : Nat) (packet : Packet) (packetLen : Nat)
    (hfd : packet.header.getFinalDestAddr ≠ cfg.addr)
    (hnr : RoutingTable.nextHop s2.routingTable packet.header.getFinalDestAddr ≠ NO_ROUTE) :
    processRouted cfg inst now s2 rssi packet packetLen =
      ((getUniqueId s2).2,
       { transmits := ackTxFor cfg packet ++
           [({ packet with header :=
                 (((packet.header.setId s2.idCounter).setDestAddr
                     (RoutingTable.nextHop s2.routingTable packet.header.getFinalDestAddr)).setSourceAddr cfg.addr) },
             packetLen)],
         logs := infoLogsFor cfg ++
           (if 0 < cfg.logLevel then ["INF: Forward to"] else []) }) := by
  unfold processRouted
  rw [if_pos hfd, if_pos hnr]
  rfl

/-- Helper: the forwarding branch taken with no route: the bad-route
counter is bumped, the error is logged, and only the optional ACK is
transmitted. -/
lemma processRouted_noroute (cfg : Configuration) (inst : Instrumentation)
    (now : Nat) (s2 : MPState) (rssi : Nat) (packet : Packet) (packetLen : Nat)
    (hfd : packet.header.getFinalDestAddr ≠ cfg.addr)
    (hnr : RoutingTable.nextHop s2.routingTable packet.header.getFinalDestAddr = NO_ROUTE) :
    processRouted cfg inst now s2 rssi packet packetLen =
      ({ s2 with badRouteCounter := inc16 s2.badRouteCounter },
       { transmits := ackTxFor cfg packet,
         logs := infoLogsFor cfg ++ [msg_no_route] }) := by
  unfold processRouted
  rw [if_pos hfd, if_neg (by simp [hnr])]

/-- C2: an accepted, non-duplicate packet whose final destination is
another node is forwarded iff the routing table has a next hop: the
forwarded packet is a copy of the received one in which exactly id (the
fresh unique id, whose counter advances), destAddr (the next hop) and
sourceAddr (self) are rewritten — originalSourceAddr and finalDestAddr are
preserved — and it is transmitted with the received length; with no route,
badRouteCounter is bumped and no forward is transmitted. -/
theorem forward_rewrites (cfg : Configuration) (inst : Instrumentation)
    (now : Nat) (s : MPState) (rssi : Nat) (packet : Packet) (packetLen : Nat)
    (hlen : sizeofHeader ≤ packetLen)
    (hver : packet.header.getPacketVersion = PACKET_VERSION)
    (haddr : packet.header.getDestAddr = BROADCAST_ADDR ∨
      packet.header.getDestAddr = cfg.addr)
    (hack : packet.header.isAck = false)
    (hdup : (s.packetReport.any fun r => r.isDuplicate packet now) = false)
    (hfd : packet.header.getFinalDestAddr ≠ cfg.addr) :
    (RoutingTable.nextHop s.routingTable packet.header.getFinalDestAddr ≠ NO_ROUTE →
      (_process cfg inst now s rssi packet packetLen).2.transmits =
        ackTxFor cfg packet ++
          [({ packet with header :=
                (((packet.header.setId s.idCounter).setDestAddr
                    (RoutingTable.nextHop s.routingTable packet.header.getFinalDestAddr)).setSourceAddr cfg.addr) },
            packetLen)] ∧
      (((packet.header.setId s.idCounter).setDestAddr
          (RoutingTable.nextHop s.routingTable packet.header.getFinalDestAddr)).setSourceAddr
          cfg.addr).originalSourceAddr = packet.header.originalSourceAddr ∧
      (((packet.header.setId s.idCounter).setDestAddr
          (RoutingTable.nextHop s.routingTable packet.header.getFinalDestAddr)).setSourceAddr
          cfg.addr).finalDestAddr = packet.header.finalDestAddr ∧
      (_process cfg inst now s rssi packet packetLen).1.idCounter = inc16 s.idCounter) ∧
    (RoutingTable.nextHop s.routingTable packet.header.getFinalDestAddr = NO_ROUTE →
      (_process cfg inst now s rssi packet packetLen).2.transmits = ackTxFor cfg packet ∧
      (_process cfg inst now s rssi packet packetLen).1.badRouteCounter =
        inc16 s.badRouteCounter ∧
      (_process cfg inst now s rssi packet packetLen).1.routingTable = s.routingTable) := by
  have hred := process_reduces_nondup cfg inst now s rssi packet packetLen
    hlen hver haddr hack hdup
  constructor
  · intro hnr
    have hnr' : RoutingTable.nextHop
        (recordPacket now packet (bumpRx now s)).routingTable
        packet.header.getFinalDestAddr ≠ NO_ROUTE := hnr
    rw [hred, processRouted_forward cfg inst now _ rssi packet packetLen hfd hnr']
    exact ⟨rfl, rfl, rfl, rfl⟩
  · intro hnr
    have hnr' : RoutingTable.nextHop
        (recordPacket now packet (bumpRx now s)).routingTable
        packet.header.getFinalDestAddr = NO_ROUTE := hnr
    rw [hred, processRouted_noroute cfg inst now _ rssi packet packetLen hfd hnr']
    exact ⟨rfl, rfl, rfl⟩

/-- Witness for C2: the concrete TEXT frame towards node 9 (route 9 → 5)
is forwarded to hop 5 with a fresh id, self as hop source, the end-to-end
fields preserved, and the received length of 30 bytes. -/
theorem forward_rewrites_witness :
    (_process cfgFx instFx 20000 sFx 50 pFwdFx 30).2.transmits =
      ackTxFor cfgFx pFwdFx ++
        [({ pFwdFx with header :=
              (((pFwdFx.header.setId sFx.idCounter).setDestAddr
                  (RoutingTable.nextHop sFx.routingTable pFwdFx.header.getFinalDestAddr)).setSourceAddr cfgFx.addr) },
          30)] ∧
    (((pFwdFx.header.setId sFx.idCounter).setDestAddr
        (RoutingTable.nextHop sFx.routingTable pFwdFx.header.getFinalDestAddr)).setSourceAddr
        cfgFx.addr).originalSourceAddr = pFwdFx.header.originalSourceAddr ∧
    (((pFwdFx.header.setId sFx.idCounter).setDestAddr
        (RoutingTable.nextHop sFx.routingTable pFwdFx.header.getFinalDestAddr)).setSourceAddr
        cfgFx.addr).finalDestAddr = pFwdFx.header.finalDestAddr ∧
    (_process cfgFx instFx 20000 sFx 50 pFwdFx 30).1.idCounter = inc16 sFx.idCounter :=
  (forward_rewrites cfgFx instFx 20000 sFx 50 pFwdFx 30
    (by decide) (by decide) (by decide) (by decide) (by decide) (by decide)).1
    (by decide)

/-- Helper: a frame whose final destination is this node reduces the
routed stage to the local dispatch. -/
lemma processRouted_local (cfg : Configuration) (inst : Instrumentation)
    (now : Nat) (s2 : MPState) (rssi : Nat) (packet : Packet) (packetLen : Nat)
    (hfd : packet.header.getFinalDestAddr = cfg.addr) :
    processRouted cfg inst now s2 rssi packet packetLen =
      processLocal cfg inst now s2 rssi packet packetLen := by
  unfold processRouted
  rw [if_neg (by simp [hfd])]

/-- C6: a RESET, RESET_COUNTERS or SETROUTE packet accepted for local
handling whose passcode fails `checkPasscode` logs "ERR: Unauthorized" and
is dropped with no state change: no restart, no counter reset, and the
routing table, the diagnostic counters and the id counter are untouched
(only the receive bookkeeping of step 4 has happened). -/
theorem unauthorized_drop (cfg : Configuration) (inst : Instrumentation)
    (now : Nat) (s : MPState) (rssi : Nat) (packet : Packet) (packetLen : Nat)
    (hlen : sizeofHeader ≤ packetLen)
    (hver : packet.header.getPacketVersion = PACKET_VERSION)
    (haddr : packet.header.getDestAddr = BROADCAST_ADDR ∨
      packet.header.getDestAddr = cfg.addr)
    (hack : packet.header.isAck = false)
    (hdup : (s.packetReport.any fun r => r.isDuplicate packet now) = false)
    (hfd : packet.header.getFinalDestAddr = cfg.addr)
    (htype : packet.header.getType = TYPE_RESET ∨
      packet.header.getType = TYPE_RESET_COUNTERS ∨
      packet.header.getType = TYPE_SETROUTE)
    (hlen2 : sizeofHeader + requiredPayloadLen packet.header.getType ≤ packetLen)
    (hpass : cfg.checkPasscode (readU32 packet.payload 0) = false) :
    msg_no_auth ∈ (_process cfg inst now s rssi packet packetLen).2.logs ∧
    (_process cfg inst now s rssi packet packetLen).2.restartCalled = false ∧
    (_process cfg inst now s rssi packet packetLen).2.countersResetCalled = false ∧
    (_process cfg inst now s rssi packet packetLen).1.routingTable = s.routingTable ∧
    (_process cfg inst now s rssi packet packetLen).1.rxPacketCounter =
      inc16 s.rxPacketCounter ∧
    (_process cfg inst now s rssi packet packetLen).1.badRxPacketCounter =
      s.badRxPacketCounter ∧
    (_process cfg inst now s rssi packet packetLen).1.badRouteCounter =
      s.badRouteCounter ∧
    (_process cfg inst now s rssi packet packetLen).1.idCounter = s.idCounter := by
  rw [process_reduces_nondup cfg inst now s rssi packet packetLen hlen hver haddr hack hdup,
    processRouted_local cfg inst now _ rssi packet packetLen hfd]
  rcases htype with ht | ht | ht
  · have ht' : packet.header.type = TYPE_RESET := ht
    have hresp : ¬ (packet.header.isResponseRequired = true ∧
        RoutingTable.nextHop (recordPacket now packet (bumpRx now s)).routingTable
          packet.header.getOriginalSourceAddr = NO_ROUTE) := by
      intro hc
      have hb := hc.1
      rw [Header.isResponseRequired, ht'] at hb
      exact absurd hb (by decide)
    have hlen2' : sizeofHeader + sizeofResetReqPayload ≤ packetLen := by
      rw [ht] at hlen2
      simpa [requiredPayloadLen] using hlen2
    have hp : cfg.checkPasscode (decodeResetReq packet.payload).passcode = false := hpass
    unfold processLocal
    rw [if_neg hresp, if_neg (by rw [ht]; decide), if_neg (by rw [ht]; decide),
      if_pos (Or.inl ht)]
    unfold handleResetOrCounters
    rw [if_neg (by omega), if_pos (by simp [hp])]
    exact ⟨by simp, rfl, rfl, rfl, rfl, rfl, rfl, rfl⟩
  · have ht' : packet.header.type = TYPE_RESET_COUNTERS := ht
    have hresp : ¬ (packet.header.isResponseRequired = true ∧
        RoutingTable.nextHop (recordPacket now packet (bumpRx now s)).routingTable
          packet.header.getOriginalSourceAddr = NO_ROUTE) := by
      intro hc
      have hb := hc.1
      rw [Header.isResponseRequired, ht'] at hb
      exact absurd hb (by decide)
    have hlen2' : sizeofHeader + sizeofResetReqPayload ≤ packetLen := by
      rw [ht] at hlen2
      simpa [requiredPayloadLen] using hlen2
    have hp : cfg.checkPasscode (decodeResetReq packet.payload).passcode = false := hpass
    unfold processLocal
    rw [if_neg hresp, if_neg (by rw [ht]; decide), if_neg (by rw [ht]; decide),
      if_pos (Or.inr ht)]
    unfold handleResetOrCounters
    rw [if_neg (by omega), if_pos (by simp [hp])]
    exact ⟨by simp, rfl, rfl, rfl, rfl, rfl, rfl, rfl⟩
  · have ht' : packet.header.type = TYPE_SETROUTE := ht
    have hresp : ¬ (packet.header.isResponseRequired = true ∧
        RoutingTable.nextHop (recordPacket now packet (bumpRx now s)).routingTable
          packet.header.getOriginalSourceAddr = NO_ROUTE) := by
      intro hc
      have hb := hc.1
      rw [Header.isResponseRequired, ht'] at hb
      exact absurd hb (by decide)
    have hlen2' : sizeofHeader + sizeofSetRouteReqPayload ≤ packetLen := by
      rw [ht] at hlen2
      simpa [requiredPayloadLen] using hlen2
    have hp : cfg.checkPasscode (decodeSetRouteReq packet.payload).passcode = false := hpass
    unfold processLocal
    rw [if_neg hresp, if_neg (by rw [ht]; decide), if_neg (by rw [ht]; decide),
      if_neg (by rw [ht]; exact (by decide)), if_neg (by rw [ht]; decide),
      if_neg (by rw [ht]; decide), if_neg (by rw [ht]; decide),
      if_neg (by rw [ht]; decide), if_pos ht]
    unfold handleSetRoute
    rw [if_neg (by omega), if_pos (by simp [hp])]
    exact ⟨by simp, rfl, rfl, rfl, rfl, rfl, rfl, rfl⟩

/-- Witness for C6: a concrete RESET frame with the wrong passcode 0 is
dropped as unauthorized with no restart and no state change. -/
theorem unauthorized_drop_witness :
    msg_no_auth ∈ (_process cfgFx instFx 20000 sFx 50 pResetBadFx 32).2.logs ∧
    (_process cfgFx instFx 20000 sFx 50 pResetBadFx 32).2.restartCalled = false ∧
    (_process cfgFx instFx 20000 sFx 50 pResetBadFx 32).2.countersResetCalled = false ∧
    (_process cfgFx instFx 20000 sFx 50 pResetBadFx 32).1.routingTable = sFx.routingTable ∧
    (_process cfgFx instFx 20000 sFx 50 pResetBadFx 32).1.rxPacketCounter =
      inc16 sFx.rxPacketCounter ∧
    (_process cfgFx instFx 20000 sFx 50 pResetBadFx 32).1.badRxPacketCounter =
      sFx.badRxPacketCounter ∧
    (_process cfgFx instFx 20000 sFx 50 pResetBadFx 32).1.badRouteCounter =
      sFx.badRouteCounter ∧
    (_process cfgFx instFx 20000 sFx 50 pResetBadFx 32).1.idCounter = sFx.idCounter :=
  unauthorized_drop cfgFx instFx 20000 sFx 50 pResetBadFx 32
    (by decide) (by decide) (by decide) (by decide) (by decide) (by decide)
    (by decide) (by decide) (by decide)

/-- C4 counterexample: a RESET frame of exactly header length is accepted
by the header checks, fails the per-type payload length check, logs
"ERR: Bad message" — but `badRxPacketCounter` stays unchanged (0), whereas
the claim says every malformed drop increments it. -/
theorem badmsg_counter_counterexample :
    msg_bad_message ∈ (_process cfgFx instFx 20000 sFx 50 pResetOkFx 28).2.logs ∧
    (_process cfgFx instFx 20000 sFx 50 pResetOkFx 28).1.badRxPacketCounter =
      sFx.badRxPacketCounter ∧
    sFx.badRxPacketCounter = 0 ∧ inc16 0 ≠ 0 :=
  ⟨by decide, by decide, by decide, by decide⟩

/-- C4 amended: frames dropped by the header-length check or the version
check increment `badRxPacketCounter` and log "ERR: Bad message"; frames
dropped by a per-type payload length check (RESET, RESET_COUNTERS,
GETSED_RESP, SETROUTE, GETROUTE_REQ, GETROUTE_RESP) log the same message
but leave `badRxPacketCounter` unchanged. -/
theorem malformed_frame_handling (cfg : Configuration) (inst : Instrumentation)
    (now : Nat) (s : MPState) (rssi : Nat) (packet : Packet) (packetLen : Nat) :
    (packetLen < sizeofHeader →
      _process cfg inst now s rssi packet packetLen =
        ({ s with badRxPacketCounter := inc16 s.badRxPacketCounter },
         { logs := [msg_bad_message] })) ∧
    (sizeofHeader ≤ packetLen → packet.header.getPacketVersion ≠ PACKET_VERSION →
      _process cfg inst now s rssi packet packetLen =
        ({ s with badRxPacketCounter := inc16 s.badRxPacketCounter },
         { logs := [msg_bad_message] })) ∧
    (∀ (hlen : sizeofHeader ≤ packetLen)
       (hver : packet.header.getPacketVersion = PACKET_VERSION)
       (haddr : packet.header.getDestAddr = BROADCAST_ADDR ∨
         packet.header.getDestAddr = cfg.addr)
       (hack : packet.header.isAck = false)
       (hdup : (s.packetReport.any fun r => r.isDuplicate packet now) = false)
       (hfd : packet.header.getFinalDestAddr = cfg.addr)
       (hroute : packet.header.isResponseRequired = true →
         RoutingTable.nextHop s.routingTable packet.header.getOriginalSourceAddr
           ≠ NO_ROUTE)
       (htype : packet.header.getType = TYPE_RESET ∨
         packet.header.getType = TYPE_RESET_COUNTERS ∨
         packet.header.getType = TYPE_GETSED_RESP ∨
         packet.header.getType = TYPE_SETROUTE ∨
         packet.header.getType = TYPE_GETROUTE_REQ ∨
         packet.header.getType = TYPE_GETROUTE_RESP)
       (hshort : packetLen < sizeofHeader + requiredPayloadLen packet.header.getType),
      msg_bad_message ∈ (_process cfg inst now s rssi packet packetLen).2.logs ∧
      (_process cfg inst now s rssi packet packetLen).1.badRxPacketCounter =
        s.badRxPacketCounter) := by
  refine ⟨?_, ?_, ?_⟩
  · intro h
    unfold _process
    rw [if_pos h]
  · intro h1 h2
    unfold _process
    rw [if_neg (by omega), if_pos h2]
  · intro hlen hver haddr hack hdup hfd hroute htype hshort
    rw [process_reduces_nondup cfg inst now s rssi packet packetLen hlen hver haddr hack hdup,
      processRouted_local cfg inst now _ rssi packet packetLen hfd]
    rcases htype with ht | ht | ht | ht | ht | ht
    · have ht' : packet.header.type = TYPE_RESET := ht
      have hresp : ¬ (packet.header.isResponseRequired = true ∧
          RoutingTable.nextHop (recordPacket now packet (bumpRx now s)).routingTable
            packet.header.getOriginalSourceAddr = NO_ROUTE) := by
        intro hc
        have hb := hc.1
        rw [Header.isResponseRequired, ht'] at hb
        exact absurd hb (by decide)
      have hshort' : packetLen < sizeofHeader + sizeofResetReqPayload := by
        rw [ht] at hshort
        simpa [requiredPayloadLen] using hshort
      unfold processLocal
      rw [if_neg hresp, if_neg (by rw [ht]; decide), if_neg (by rw [ht]; decide),
        if_pos (Or.inl ht)]
      unfold handleResetOrCounters
      rw [if_pos (by omega)]
      exact ⟨by simp, rfl⟩
    · have ht' : packet.header.type = TYPE_RESET_COUNTERS := ht
      have hresp : ¬ (packet.header.isResponseRequired = true ∧
          RoutingTable.nextHop (recordPacket now packet (bumpRx now s)).routingTable
            packet.header.getOriginalSourceAddr = NO_ROUTE) := by
        intro hc
        have hb := hc.1
        rw [Header.isResponseRequired, ht'] at hb
        exact absurd hb (by decide)
      have hshort' : packetLen < sizeofHeader + sizeofResetReqPayload := by
        rw [ht] at hshort
        simpa [requiredPayloadLen] using hshort
      unfold processLocal
      rw [if_neg hresp, if_neg (by rw [ht]; decide), if_neg (by rw [ht]; decide),
        if_pos (Or.inr ht)]
      unfold handleResetOrCounters
      rw [if_pos (by omega)]
      exact ⟨by simp, rfl⟩
    · have ht' : packet.header.type = TYPE_GETSED_RESP := ht
      have hresp : ¬ (packet.header.isResponseRequired = true ∧
          RoutingTable.nextHop (recordPacket now packet (bumpRx now s)).routingTable
            packet.header.getOriginalSourceAddr = NO_ROUTE) := by
        intro hc
        have hb := hc.1
        rw [Header.isResponseRequired, ht'] at hb
        exact absurd hb (by decide)
      have hshort' : packetLen < sizeofHeader + sizeofSadRespPayload := by
        rw [ht] at hshort
        simpa [requiredPayloadLen] using hshort
      unfold processLocal
      rw [if_neg hresp, if_neg (by rw [ht]; decide), if_neg (by rw [ht]; decide),
        if_neg (by rw [ht]; decide), if_pos ht]
      unfold handleGetSedResp
      rw [if_pos (by omega)]
      exact ⟨by simp, rfl⟩
    · have ht' : packet.header.type = TYPE_SETROUTE := ht
      have hresp : ¬ (packet.header.isResponseRequired = true ∧
          RoutingTable.nextHop (recordPacket now packet (bumpRx now s)).routingTable
            packet.header.getOriginalSourceAddr = NO_ROUTE) := by
        intro hc
        have hb := hc.1
        rw [Header.isResponseRequired, ht'] at hb
        exact absurd hb (by decide)
      have hshort' : packetLen < sizeofHeader + sizeofSetRouteReqPayload := by
        rw [ht] at hshort
        simpa [requiredPayloadLen] using hshort
      unfold processLocal
      rw [if_neg hresp, if_neg (by rw [ht]; decide), if_neg (by rw [ht]; decide),
        if_neg (by rw [ht]; decide), if_neg (by rw [ht]; decide),
        if_neg (by rw [ht]; decide), if_neg (by rw [ht]; decide),
        if_neg (by rw [ht]; decide), if_pos ht]
      unfold handleSetRoute
      rw [if_pos (by omega)]
      exact ⟨by simp, rfl⟩
    · have ht' : packet.header.type = TYPE_GETROUTE_REQ := ht
      have hb : RoutingTable.nextHop (recordPacket now packet (bumpRx now s)).routingTable
          packet.header.getOriginalSourceAddr ≠ NO_ROUTE :=
        hroute (by rw [Header.isResponseRequired, ht']; decide)
      have hresp : ¬ (packet.header.isResponseRequired = true ∧
          RoutingTable.nextHop (recordPacket now packet (bumpRx now s)).routingTable
            packet.header.getOriginalSourceAddr = NO_ROUTE) := fun hc => hb hc.2
      have hshort' : packetLen < sizeofHeader + sizeofGetRouteReqPayload := by
        rw [ht] at hshort
        simpa [requiredPayloadLen] using hshort
      unfold processLocal
      rw [if_neg hresp, if_neg (by rw [ht]; decide), if_neg (by rw [ht]; decide),
        if_neg (by rw [ht]; decide), if_neg (by rw [ht]; decide),
        if_neg (by rw [ht]; decide), if_neg (by rw [ht]; decide),
        if_neg (by rw [ht]; decide), if_neg (by rw [ht]; decide), if_pos ht]
      unfold handleGetRouteReq
      rw [if_pos (by omega)]
      exact ⟨by simp, rfl⟩
    · have ht' : packet.header.type = TYPE_GETROUTE_RESP := ht
      have hresp : ¬ (packet.header.isResponseRequired = true ∧
          RoutingTable.nextHop (recordPacket now packet (bumpRx now s)).routingTable
            packet.header.getOriginalSourceAddr = NO_ROUTE) := by
        intro hc
        have hb := hc.1
        rw [Header.isResponseRequired, ht'] at hb
        exact absurd hb (by decide)
      have hshort' : packetLen < sizeofHeader + sizeofGetRouteRespPayload := by
        rw [ht] at hshort
        simpa [requiredPayloadLen] using hshort
      unfold processLocal
      rw [if_neg hresp, if_neg (by rw [ht]; decide), if_neg (by rw [ht]; decide),
        if_neg (by rw [ht]; decide), if_neg (by rw [ht]; decide),
        if_neg (by rw [ht]; decide), if_neg (by rw [ht]; decide),
        if_neg (by rw [ht]; decide), if_neg (by rw [ht]; decide),
        if_neg (by rw [ht]; decide), if_pos ht]
      unfold handleGetRouteResp
      rw [if_pos (by omega)]
      exact ⟨by simp, rfl⟩

/-- Witness for C4 amended: a 10-byte frame is below header size, bumps
the bad-receive counter and logs the error. -/
theorem malformed_frame_handling_witness :
    _process cfgFx instFx 20000 sFx 50 pFwdFx 10 =
      ({ sFx with badRxPacketCounter := inc16 sFx.badRxPacketCounter },
       { logs := [msg_bad_message] }) :=
  (malformed_frame_handling cfgFx instFx 20000 sFx 50 pFwdFx 10).1 (by decide)

/-- Helper: setting a slot of a list leaves the new element in the list. -/
lemma mem_set_self {α : Type} (l : List α) (i : Nat) (a : α)
    (h : i < l.length) : a ∈ l.set i a := by
  have h2 : i < (l.set i a).length := by simpa using h
  have h3 : (l.set i a)[i] = a := List.getElem_set_self h2
  have h4 := List.getElem_mem h2
  rwa [h3] at h4

/-- Helper: the PING_REQ handler leaves the dedup ring and pointer alone. -/
lemma handlePingReq_ring (cfg : Configuration) (s2 : MPState)
    (packet : Packet) (firstHop : Nat) :
    (handlePingReq cfg s2 packet firstHop).1.packetReport = s2.packetReport ∧
    (handlePingReq cfg s2 packet firstHop).1.packetReportPtr = s2.packetReportPtr :=
  ⟨rfl, rfl⟩

/-- Helper: the GETSED_REQ handler leaves the dedup ring and pointer alone. -/
lemma handleGetSedReq_ring (cfg : Configuration) (inst : Instrumentation)
    (now : Nat) (s2 : MPState) (rssi : Nat) (packet : Packet) (firstHop : Nat) :
    (handleGetSedReq cfg inst now s2 rssi packet firstHop).1.packetReport = s2.packetReport ∧
    (handleGetSedReq cfg inst now s2 rssi packet firstHop).1.packetReportPtr = s2.packetReportPtr :=
  ⟨rfl, rfl⟩

/-- Helper: the RESET/RESET_COUNTERS handler leaves the dedup ring and
pointer alone (also through `resetCounters`). -/
lemma handleResetOrCounters_ring (cfg : Configuration) (s2 : MPState)
    (packet : Packet) (packetLen : Nat) :
    (handleResetOrCounters cfg s2 packet packetLen).1.packetReport = s2.packetReport ∧
    (handleResetOrCounters cfg s2 packet packetLen).1.packetReportPtr = s2.packetReportPtr := by
  unfold handleResetOrCounters
  split_ifs <;> exact ⟨rfl, rfl⟩

/-- Helper: the GETSED_RESP handler leaves the dedup ring and pointer alone. -/
lemma handleGetSedResp_ring (cfg : Configuration) (s2 : MPState)
    (packet : Packet) (packetLen : Nat) :
    (handleGetSedResp cfg s2 packet packetLen).1.packetReport = s2.packetReport ∧
    (handleGetSedResp cfg s2 packet packetLen).1.packetReportPtr = s2.packetReportPtr := by
  unfold handleGetSedResp
  split_ifs <;> exact ⟨rfl, rfl⟩

/-- Helper: the PING_RESP handler leaves the dedup ring and pointer alone. -/
lemma handlePingResp_ring (cfg : Configuration) (s2 : MPState) (packet : Packet) :
    (handlePingResp cfg s2 packet).1.packetReport = s2.packetReport ∧
    (handlePingResp cfg s2 packet).1.packetReportPtr = s2.packetReportPtr :=
  ⟨rfl, rfl⟩

/-- Helper: the dead second RESET branch leaves the dedup ring and pointer
alone. -/
lemma handleResetNoAuth_ring (cfg : Configuration) (s2 : MPState) (packet : Packet) :
    (handleResetNoAuth cfg s2 packet).1.packetReport = s2.packetReport ∧
    (handleResetNoAuth cfg s2 packet).1.packetReportPtr = s2.packetReportPtr :=
  ⟨rfl, rfl⟩

/-- Helper: the TEXT handler leaves the dedup ring and pointer alone. -/
lemma handleText_ring (cfg : Configuration) (s2 : MPState)
    (packet : Packet) (packetLen : Nat) :
    (handleText cfg s2 packet packetLen).1.packetReport = s2.packetReport ∧
    (handleText cfg s2 packet packetLen).1.packetReportPtr = s2.packetReportPtr :=
  ⟨rfl, rfl⟩

/-- Helper: the SETROUTE handler leaves the dedup ring and pointer alone. -/
lemma handleSetRoute_ring (cfg : Configuration) (s2 : MPState)
    (packet : Packet) (packetLen : Nat) :
    (handleSetRoute cfg s2 packet packetLen).1.packetReport = s2.packetReport ∧
    (handleSetRoute cfg s2 packet packetLen).1.packetReportPtr = s2.packetReportPtr := by
  unfold handleSetRoute
  split_ifs <;> exact ⟨rfl, rfl⟩

/-- Helper: the GETROUTE_REQ handler leaves the dedup ring and pointer
alone. -/
lemma handleGetRouteReq_ring (cfg : Configuration) (s2 : MPState)
    (packet : Packet) (packetLen : Nat) (firstHop : Nat) :
    (handleGetRouteReq cfg s2 packet packetLen firstHop).1.packetReport = s2.packetReport ∧
    (handleGetRouteReq cfg s2 packet packetLen firstHop).1.packetReportPtr = s2.packetReportPtr := by
  unfold handleGetRouteReq
  split_ifs <;> exact ⟨rfl, rfl⟩

/-- Helper: the GETROUTE_RESP handler leaves the dedup ring and pointer
alone. -/
lemma handleGetRouteResp_ring (cfg : Configuration) (s2 : MPState)
    (packet : Packet) (packetLen : Nat) :
    (handleGetRouteResp cfg s2 packet packetLen).1.packetReport = s2.packetReport ∧
    (handleGetRouteResp cfg s2 packet packetLen).1.packetReportPtr = s2.packetReportPtr := by
  unfold handleGetRouteResp
  split_ifs <;> exact ⟨rfl, rfl⟩

/-- Helper: no local handler touches the dedup ring or its pointer. -/
lemma processLocal_ring (cfg : Configuration) (inst : Instrumentation)
    (now : Nat) (s2 : MPState) (rssi : Nat) (packet : Packet) (packetLen : Nat) :
    (processLocal cfg inst now s2 rssi packet packetLen).1.packetReport = s2.packetReport ∧
    (processLocal cfg inst now s2 rssi packet packetLen).1.packetReportPtr = s2.packetReportPtr := by
  unfold processLocal
  by_cases h1 : (packet.header.isResponseRequired = true ∧
      RoutingTable.nextHop s2.routingTable packet.header.getOriginalSourceAddr = NO_ROUTE)
  · rw [if_pos h1]
    exact ⟨rfl, rfl⟩
  rw [if_neg h1]
  by_cases h2 : packet.header.getType = TYPE_PING_REQ
  · rw [if_pos h2]
    exact handlePingReq_ring _ _ _ _
  rw [if_neg h2]
  by_cases h3 : packet.header.getType = TYPE_GETSED_REQ
  · rw [if_pos h3]
    exact handleGetSedReq_ring _ _ _ _ _ _ _
  rw [if_neg h3]
  by_cases h4 : (packet.header.getType = TYPE_RESET ∨
      packet.header.getType = TYPE_RESET_COUNTERS)
  · rw [if_pos h4]
    exact handleResetOrCounters_ring _ _ _ _
  rw [if_neg h4]
  by_cases h5 : packet.header.getType = TYPE_GETSED_RESP
  · rw [if_pos h5]
    exact handleGetSedResp_ring _ _ _ _
  rw [if_neg h5]
  by_cases h6 : packet.header.getType = TYPE_PING_RESP
  · rw [if_pos h6]
    exact handlePingResp_ring _ _ _
  rw [if_neg h6]
  have h7 : ¬ packet.header.getType = TYPE_RESET := fun hr => h4 (Or.inl hr)
  rw [if_neg h7]
  by_cases h8 : packet.header.getType = TYPE_TEXT
  · rw [if_pos h8]
    exact handleText_ring _ _ _ _
  rw [if_neg h8]
  by_cases h9 : packet.header.getType = TYPE_SETROUTE
  · rw [if_pos h9]
    exact handleSetRoute_ring _ _ _ _
  rw [if_neg h9]
  by_cases h10 : packet.header.getType = TYPE_GETROUTE_REQ
  · rw [if_pos h10]
    exact handleGetRouteReq_ring _ _ _ _ _
  rw [if_neg h10]
  by_cases h11 : packet.header.getType = TYPE_GETROUTE_RESP
  · rw [if_pos h11]
    exact handleGetRouteResp_ring _ _ _ _
  rw [if_neg h11]
  exact ⟨rfl, rfl⟩

/-- Helper: the routed stage never touches the dedup ring or its pointer;
only the record step before it does. -/
lemma processRouted_ring (cfg : Configuration) (inst : Instrumentation)
    (now : Nat) (s2 : MPState) (rssi : Nat) (packet : Packet) (packetLen : Nat) :
    (processRouted cfg inst now s2 rssi packet packetLen).1.packetReport = s2.packetReport ∧
    (processRouted cfg inst now s2 rssi packet packetLen).1.packetReportPtr = s2.packetReportPtr := by
  unfold processRouted
  by_cases h1 : packet.header.getFinalDestAddr ≠ cfg.addr
  · rw [if_pos h1]
    by_cases h2 : RoutingTable.nextHop s2.routingTable packet.header.getFinalDestAddr ≠ NO_ROUTE
    · rw [if_pos h2]
      exact ⟨rfl, rfl⟩
    · rw [if_neg h2]
      exact ⟨rfl, rfl⟩
  · rw [if_neg h1]
    exact processLocal_ring _ _ _ _ _ _ _

/-- C3: processing an accepted, non-duplicate, non-ACK packet records its
`(originalSourceAddr, id)` with the current time at the ring pointer and
advances the pointer modulo the slot count; a second accepted non-ACK
packet with the same key arriving within the age window is then dropped by
the duplicate check — its full result is the duplicate-drop result
(receive bookkeeping and the optional ACK only), so at most one of the two
triggers a local handler or a forward. -/
theorem dedup_drops_second (cfg : Configuration) (inst : Instrumentation)
    (now1 now2 : Nat) (s : MPState) (rssi1 rssi2 : Nat) (p1 p2 : Packet)
    (len1 len2 : Nat)
    (hlen1 : sizeofHeader ≤ len1)
    (hver1 : p1.header.getPacketVersion = PACKET_VERSION)
    (haddr1 : p1.header.getDestAddr = BROADCAST_ADDR ∨
      p1.header.getDestAddr = cfg.addr)
    (hack1 : p1.header.isAck = false)
    (hdup1 : (s.packetReport.any fun r => r.isDuplicate p1 now1) = false)
    (hringlen : s.packetReport.length = packetReportSlots)
    (hptr : s.packetReportPtr < packetReportSlots)
    (hkeyn : p2.header.originalSourceAddr = p1.header.originalSourceAddr)
    (hkeyi : p2.header.id = p1.header.id)
    (hwin : now2 - now1 ≤ packetReportWindowMs)
    (hlen2 : sizeofHeader ≤ len2)
    (hver2 : p2.header.getPacketVersion = PACKET_VERSION)
    (haddr2 : p2.header.getDestAddr = BROADCAST_ADDR ∨
      p2.header.getDestAddr = cfg.addr)
    (hack2 : p2.header.isAck = false) :
    (_process cfg inst now1 s rssi1 p1 len1).1.packetReport =
      s.packetReport.set s.packetReportPtr
        ⟨p1.header.originalSourceAddr, p1.header.id, now1⟩ ∧
    (_process cfg inst now1 s rssi1 p1 len1).1.packetReportPtr =
      (s.packetReportPtr + 1) % packetReportSlots ∧
    _process cfg inst now2 (_process cfg inst now1 s rssi1 p1 len1).1 rssi2 p2 len2 =
      (bumpRx now2 (_process cfg inst now1 s rssi1 p1 len1).1,
       { transmits := ackTxFor cfg p2,
         logs := infoLogsFor cfg ++ dupLogsFor cfg }) := by
  have hred1 := process_reduces_nondup cfg inst now1 s rssi1 p1 len1
    hlen1 hver1 haddr1 hack1 hdup1
  have hring : (_process cfg inst now1 s rssi1 p1 len1).1.packetReport =
      s.packetReport.set s.packetReportPtr
        ⟨p1.header.originalSourceAddr, p1.header.id, now1⟩ := by
    rw [hred1, (processRouted_ring cfg inst now1 _ rssi1 p1 len1).1]
    rfl
  have hptr1 : (_process cfg inst now1 s rssi1 p1 len1).1.packetReportPtr =
      (s.packetReportPtr + 1) % packetReportSlots := by
    rw [hred1, (processRouted_ring cfg inst now1 _ rssi1 p1 len1).2]
    rfl
  refine ⟨hring, hptr1, ?_⟩
  have hdup2 : ((_process cfg inst now1 s rssi1 p1 len1).1.packetReport.any
      fun r => r.isDuplicate p2 now2) = true := by
    rw [hring]
    apply List.any_eq_true.mpr
    refine ⟨⟨p1.header.originalSourceAddr, p1.header.id, now1⟩, ?_, ?_⟩
    · exact mem_set_self _ _ _ (by omega)
    · simp [PacketReport.isDuplicate, hkeyn, hkeyi, hwin]
  exact process_reduces_dup cfg inst now2 _ rssi2 p2 len2
    hlen2 hver2 haddr2 hack2 hdup2

/-- Witness for C3: the concrete forwarded TEXT frame is recorded at ring
slot 0, and the identical frame one second later is dropped with only its
ACK re-sent. -/
theorem dedup_drops_second_witness :
    (_process cfgFx instFx 20000 sFx 50 pFwdFx 30).1.packetReport =
      sFx.packetReport.set sFx.packetReportPtr
        ⟨pFwdFx.header.originalSourceAddr, pFwdFx.header.id, 20000⟩ ∧
    (_process cfgFx instFx 20000 sFx 50 pFwdFx 30).1.packetReportPtr =
      (sFx.packetReportPtr + 1) % packetReportSlots ∧
    _process cfgFx instFx 21000 (_process cfgFx instFx 20000 sFx 50 pFwdFx 30).1
        50 pFwdFx 30 =
      (bumpRx 21000 (_process cfgFx instFx 20000 sFx 50 pFwdFx 30).1,
       { transmits := ackTxFor cfgFx pFwdFx,
         logs := infoLogsFor cfgFx ++ dupLogsFor cfgFx }) :=
  dedup_drops_second cfgFx instFx 20000 21000 sFx 50 50 pFwdFx pFwdFx 30 30
    (by decide) (by decide) (by decide) (by decide) (by decide) (by decide)
    (by decide) (by decide) (by decide) (by decide) (by decide) (by decide)
    (by decide) (by decide)

end Birdhouse
